import Mathlib

/-!
# kube-cloud-client: the EKS and GKE adapters of package `client`

A shallow embedding of `client/aws.go` and `client/google.go`.

* Go strings and byte slices are lists of bytes (`GoString`).
* External collaborators (the AWS and Google SDK calls, the client-config
  builder and the Kubernetes client factory) are fields of an environment
  record; every call the code makes to them is recorded, with its arguments,
  in the trace of the run.
* A run ends with a client, with an error, or with a nil-pointer panic.
* `encoding/base64` and the part of `fmt.Errorf` the package uses are
  embedded from the Go standard library, since the package's observable
  results (token, error messages) are computed by them.
-/

namespace Client

/-! ## Strings and errors -/

/-- One byte of a Go string or byte slice. -/
abbrev Byte := Fin 256

/-- A Go string: an immutable sequence of bytes. -/
abbrev GoString := List Byte

/-- The bytes of an ASCII string literal of the source (one byte per character). -/
def str (s : String) : GoString := s.data.map (fun c => Fin.ofNat c.toNat)

/-- The decimal rendering of `strconv.FormatInt(n, 10)`. -/
def FormatInt (n : Int) : GoString := str (toString n)

/-- Error values of the run: the two concrete types `fmt.Errorf` returns and
`base64.CorruptInputError`.  An error produced by an external collaborator is
an `errorString` carrying its message. -/
inductive GoError where
  | errorString (s : GoString)
  | wrapError (msg : GoString) (err : GoError)
  | CorruptInputError (n : Int)
deriving DecidableEq, Repr

/-- The method `Error()` of an error value. -/
def GoError.Error : GoError → GoString
  | .errorString s => s
  | .wrapError msg _ => msg
  | .CorruptInputError n => str "illegal base64 data at input byte " ++ FormatInt n

/-- The method `Unwrap()` that `errors.Unwrap` consults: only a `wrapError` has a cause. -/
def GoError.Unwrap : GoError → Option GoError
  | .wrapError _ err => some err
  | _ => none

/-! ## fmt.Errorf -/

/-- An operand of `fmt.Errorf`: a string, or an `error` interface value (possibly nil). -/
inductive Arg where
  | string (s : GoString)
  | error (e : Option GoError)
deriving DecidableEq, Repr

/-- What `fmt` prints for verb `verb` (`s` or `w`) applied to one operand.
A nil operand is a bad verb for both and prints `%!verb(<nil>)`; `%w` applied
to a non-error operand is a bad verb as well. -/
def printArg (verb : Byte) : Arg → GoString
  | .string s =>
    if verb = 119 then str "%!w(string=" ++ s ++ str ")" else s
  | .error (some e) => e.Error
  | .error none => str "%!" ++ [verb] ++ str "(<nil>)"

/-- The formatting loop of `fmt`, for the verbs `%s` and `%w` (and `%%`) that
the package uses.  An operand that is missing prints `%!verb(MISSING)`. -/
def doPrintf : GoString → List Arg → GoString
  | [], _ => []
  | c :: fmt, args =>
    if c = 37 then
      match fmt with
      | [] => str "%!(NOVERB)"
      | verb :: fmt2 =>
        if verb = 37 then 37 :: doPrintf fmt2 args
        else
          match args with
          | [] => str "%!" ++ [verb] ++ str "(MISSING)" ++ doPrintf fmt2 []
          | a :: args2 => printArg verb a ++ doPrintf fmt2 args2
    else c :: doPrintf fmt args

/-- The operands that the `%w` verbs of the format consume and that are
non-nil errors: the `wrappedErrs` of `fmt.Errorf`. -/
def wrappedErrs : GoString → List Arg → List GoError
  | [], _ => []
  | c :: fmt, args =>
    if c = 37 then
      match fmt with
      | [] => []
      | verb :: fmt2 =>
        if verb = 37 then wrappedErrs fmt2 args
        else
          match args with
          | [] => []
          | a :: args2 =>
            match verb, a with
            | 119, .error (some e) => e :: wrappedErrs fmt2 args2
            | _, _ => wrappedErrs fmt2 args2
    else wrappedErrs fmt args

/-- The function `fmt.Errorf`: the formatted message, wrapping the operand of `%w`
when there is exactly one non-nil such operand and none otherwise. -/
def Errorf (format : GoString) (args : List Arg) : GoError :=
  match wrappedErrs format args with
  | [e] => .wrapError (doPrintf format args) e
  | _ => .errorString (doPrintf format args)

/-! ## encoding/base64 -/

namespace base64

/-- An `Encoding`: a 64-byte alphabet, the padding character (`none` is
`NoPadding`) and the strict flag. -/
structure Encoding where
  encode : List Byte
  padChar : Option Byte
  strict : Bool

/-- The standard alphabet. -/
def encodeStd : GoString :=
  str "ABCDEFGHIJKLMNOPQRSTUVWXYZabcdefghijklmnopqrstuvwxyz0123456789+/"

/-- The URL and filename safe alphabet. -/
def encodeURL : GoString :=
  str "ABCDEFGHIJKLMNOPQRSTUVWXYZabcdefghijklmnopqrstuvwxyz0123456789-_"

/-- The padding character `=`. -/
def StdPadding : Byte := 61

/-- The encoding `base64.StdEncoding`: standard alphabet, padded. -/
def StdEncoding : Encoding := ⟨encodeStd, some StdPadding, false⟩

/-- The encoding `base64.RawURLEncoding`: URL alphabet, unpadded. -/
def RawURLEncoding : Encoding := ⟨encodeURL, none, false⟩

/-- The alphabet lookup `enc.encode[i]`. -/
def Encoding.encodeAt (enc : Encoding) (i : Nat) : Byte := enc.encode.getD i 0

/-- The table `enc.decodeMap[c]`: the alphabet index of `c`, or `0xff`. -/
def Encoding.decodeMap (enc : Encoding) (c : Byte) : Nat :=
  if enc.encode.indexOf c < enc.encode.length then enc.encode.indexOf c else 0xff

/-- The padding that `Encode` appends: `n` padding characters, none for `NoPadding`. -/
def Encoding.padding (enc : Encoding) (n : Nat) : List Byte :=
  match enc.padChar with
  | some p => List.replicate n p
  | none => []

/-- The method `Encode`: three source bytes give four alphabet characters; a
final block of one or two bytes gives two or three characters and padding. -/
def Encoding.Encode (enc : Encoding) : List Byte → List Byte
  | a :: b :: c :: rest =>
    let val := a.val <<< 16 ||| b.val <<< 8 ||| c.val
    enc.encodeAt (val >>> 18 &&& 0x3F) :: enc.encodeAt (val >>> 12 &&& 0x3F) ::
      enc.encodeAt (val >>> 6 &&& 0x3F) :: enc.encodeAt (val &&& 0x3F) :: enc.Encode rest
  | [a, b] =>
    let val := a.val <<< 16 ||| b.val <<< 8
    enc.encodeAt (val >>> 18 &&& 0x3F) :: enc.encodeAt (val >>> 12 &&& 0x3F) ::
      enc.encodeAt (val >>> 6 &&& 0x3F) :: enc.padding 1
  | [a] =>
    let val := a.val <<< 16
    enc.encodeAt (val >>> 18 &&& 0x3F) :: enc.encodeAt (val >>> 12 &&& 0x3F) :: enc.padding 2
  | [] => []

/-- The method `EncodeToString`. -/
def Encoding.EncodeToString (enc : Encoding) (src : List Byte) : GoString := enc.Encode src

/-- Whether `c` is one of the characters `\n` and `\r`, which the decoder skips. -/
def isNewline (c : Byte) : Bool := c = 10 || c = 13

/-- How the scanning loop of `decodeQuantum` ends: with a return statement
(`nsi`, no byte, `err`), or by leaving the loop with `dlen` characters in
`dbuf`, the input position `si`, the input left from there and the pending
trailing-garbage error. -/
inductive Scan where
  | ret (nsi : Nat) (err : Option GoError)
  | brk (dlen : Nat) (dbuf : List Nat) (si : Nat) (rest : List Byte) (err : Option GoError)
deriving DecidableEq, Repr

/-- The end of the padding branch: skip newlines, flag trailing garbage, leave the loop. -/
def scanPadEnd (j : Nat) (dbuf : List Nat) (si : Nat) (rest : List Byte) : Scan :=
  let rest2 := rest.dropWhile isNewline
  let si2 := si + (rest.length - rest2.length)
  .brk j dbuf si2 rest2 (if rest2 = [] then none else some (.CorruptInputError si2))

/-- The loop `for j := 0; j < len(dbuf); j++` of `decodeQuantum`, reading
the input left from position `si` (the first argument is `src[si:]`). -/
def Encoding.scanQuantum (enc : Encoding) : List Byte → Nat → List Nat → Nat → Scan
  | [], j, dbuf, si =>
    if 4 ≤ j then .brk 4 dbuf si [] none
    else if j = 0 then .ret si none
    else if j = 1 ∨ enc.padChar ≠ none then .ret si (some (.CorruptInputError ((si : Int) - j)))
    else .brk j dbuf si [] none
  | c :: rest, j, dbuf, si =>
    if 4 ≤ j then .brk 4 dbuf si (c :: rest) none
    else
      let out := enc.decodeMap c
      if out ≠ 0xff then enc.scanQuantum rest (j + 1) (dbuf.set j out) (si + 1)
      else if c = 10 ∨ c = 13 then enc.scanQuantum rest j dbuf (si + 1)
      else if some c ≠ enc.padChar then .ret (si + 1) (some (.CorruptInputError si))
      else
        match j with
        | 0 => .ret (si + 1) (some (.CorruptInputError si))
        | 1 => .ret (si + 1) (some (.CorruptInputError si))
        | 2 =>
          let rest2 := rest.dropWhile isNewline
          let si2 := si + 1 + (rest.length - rest2.length)
          match rest2 with
          | [] => .ret si2 (some (.CorruptInputError si2))
          | d :: rest3 =>
            if some d ≠ enc.padChar then .ret si2 (some (.CorruptInputError ((si2 : Int) - 1)))
            else scanPadEnd j dbuf (si2 + 1) rest3
        | _ => scanPadEnd j dbuf (si + 1) rest

/-- The result of `decodeQuantum`: the new input position, the input left,
the bytes written to `dst` and the error. -/
structure Quantum where
  nsi : Nat
  rest : List Byte
  out : List Byte
  err : Option GoError
deriving DecidableEq, Repr

/-- The method `decodeQuantum`: scan up to four characters, then convert the
`dlen` six-bit values into `dlen - 1` bytes. -/
def Encoding.decodeQuantum (enc : Encoding) (src : List Byte) (si : Nat) : Quantum :=
  match enc.scanQuantum src 0 [0, 0, 0, 0] si with
  | .ret nsi err => ⟨nsi, [], [], err⟩
  | .brk dlen dbuf si rest err =>
    let val := dbuf.getD 0 0 <<< 18 ||| dbuf.getD 1 0 <<< 12 ||| dbuf.getD 2 0 <<< 6 ||| dbuf.getD 3 0
    let b2 : Byte := Fin.ofNat (val >>> 0)
    let b1 : Byte := Fin.ofNat (val >>> 8)
    let b0 : Byte := Fin.ofNat (val >>> 16)
    match dlen with
    | 4 => ⟨si, rest, [b0, b1, b2], err⟩
    | 3 =>
      if enc.strict && b2 ≠ 0 then ⟨si, rest, [], some (.CorruptInputError ((si : Int) - 1))⟩
      else ⟨si, rest, [b0, b1], err⟩
    | 2 =>
      if enc.strict && (b1 ≠ 0 || b2 ≠ 0) then
        ⟨si, rest, [], some (.CorruptInputError ((si : Int) - 2))⟩
      else ⟨si, rest, [b0], err⟩
    | _ => ⟨si, rest, [], err⟩

/-- The loop `for si < len(src)` of `Decode`, one `decodeQuantum` per
iteration; `fuel` bounds the iterations (each consumes input, so the length
of the input is enough). -/
def Encoding.decodeLoop (enc : Encoding) : Nat → List Byte → Nat → List Byte →
    List Byte × Option GoError
  | _, [], _, dst => (dst, none)
  | 0, _ :: _, _, dst => (dst, none)
  | fuel + 1, c :: src, si, dst =>
    let q := enc.decodeQuantum (c :: src) si
    match q.err with
    | some err => (dst ++ q.out, some err)
    | none => enc.decodeLoop fuel q.rest q.nsi (dst ++ q.out)

/-- The method `DecodeString`: the decoded bytes and the error. -/
def Encoding.DecodeString (enc : Encoding) (s : GoString) : List Byte × Option GoError :=
  enc.decodeLoop s.length s 0 []

end base64

/-! ## Data of the external collaborators -/

/-- The duration `time.Second`, in nanoseconds (`time.Duration` counts nanoseconds). -/
def time.Second : Int := 1000000000

/-- The struct `aws.Config` of aws-sdk-go-v2, as far as the package reads it. -/
structure awsv2.Config where
  Region : GoString
deriving DecidableEq, Repr

/-- The struct `aws.Config` of aws-sdk-go (v1); `Region` is a `*string`. -/
structure awsv1.Config where
  Region : Option GoString
deriving DecidableEq, Repr

/-- A `*session.Session` of aws-sdk-go. -/
structure Session where
  handle : Nat
deriving DecidableEq, Repr

/-- The struct `types.Certificate` of the EKS API; `Data` is a `*string`. -/
structure eks.Certificate where
  Data : Option GoString
deriving DecidableEq, Repr

/-- The struct `types.Cluster` of the EKS API, as far as the package reads
it; both fields are pointers. -/
structure eks.Cluster where
  CertificateAuthority : Option eks.Certificate
  Endpoint : Option GoString
deriving DecidableEq, Repr

/-- The struct `eks.DescribeClusterOutput`; `Cluster` is a pointer. -/
structure eks.DescribeClusterOutput where
  Cluster : Option eks.Cluster
deriving DecidableEq, Repr

/-- The struct `rest.TLSClientConfig`. -/
structure rest.TLSClientConfig where
  CAData : List Byte := []
deriving DecidableEq, Repr

/-- The struct `api.AuthProviderConfig`; `Config` is a `map[string]string`. -/
structure api.AuthProviderConfig where
  Name : GoString
  Config : List (GoString × GoString)
deriving DecidableEq, Repr

/-- The struct `rest.Config`: the connection configuration the Kubernetes
client factory takes.  Fields the package never sets keep their zero value. -/
structure rest.Config where
  Host : GoString := []
  BearerToken : GoString := []
  TLSClientConfig : rest.TLSClientConfig := {}
  AuthProvider : Option api.AuthProviderConfig := none
deriving DecidableEq, Repr

/-- A `dynamic.Interface` handle returned by the Kubernetes client factory. -/
structure DynamicClient where
  handle : Nat
deriving DecidableEq, Repr

/-- The struct `container.MasterAuth` of the GKE API. -/
structure container.MasterAuth where
  ClusterCaCertificate : GoString
deriving DecidableEq, Repr

/-- The struct `container.Cluster` of the GKE API, as far as the package
reads it; `MasterAuth` is a pointer. -/
structure container.Cluster where
  Name : GoString
  Endpoint : GoString
  MasterAuth : Option container.MasterAuth
deriving DecidableEq, Repr

/-- The struct `container.ListClustersResponse`. -/
structure container.ListClustersResponse where
  Clusters : List container.Cluster
deriving DecidableEq, Repr

/-- A `*container.Service`. -/
structure container.Service where
  handle : Nat
deriving DecidableEq, Repr

/-- The struct `api.Cluster` of a kubeconfig. -/
structure api.Cluster where
  Server : GoString := []
  CertificateAuthorityData : List Byte := []
deriving DecidableEq, Repr

/-- The struct `api.Context` of a kubeconfig. -/
structure api.Context where
  Cluster : GoString := []
  AuthInfo : GoString := []
deriving DecidableEq, Repr

/-- The struct `api.AuthInfo` of a kubeconfig: `Token` is the static bearer
token, `AuthProvider` a pointer to the auth-provider reference. -/
structure api.AuthInfo where
  Token : GoString := []
  AuthProvider : Option api.AuthProviderConfig := none
deriving DecidableEq, Repr

/-- A Go map with string keys, as an association list with at most one entry per key. -/
abbrev GoMap (V : Type) := List (GoString × V)

/-- The assignment `m[k] = v`. -/
def GoMap.set {V : Type} (m : GoMap V) (k : GoString) (v : V) : GoMap V :=
  if m.any (fun e => e.1 = k) then m.map (fun e => if e.1 = k then (k, v) else e)
  else m ++ [(k, v)]

/-- The lookup `m[k]`. -/
def GoMap.get {V : Type} (m : GoMap V) (k : GoString) : Option V := List.lookup k m

/-- The struct `api.Config`: a kubeconfig. -/
structure api.Config where
  APIVersion : GoString := []
  Kind : GoString := []
  Clusters : GoMap api.Cluster := []
  AuthInfos : GoMap api.AuthInfo := []
  Contexts : GoMap api.Context := []
deriving DecidableEq, Repr

/-- The struct `clientcmd.ConfigOverrides`, as far as the package sets it. -/
structure clientcmd.ConfigOverrides where
  CurrentContext : GoString := []
deriving DecidableEq, Repr

/-- A call to an external collaborator, with its arguments. -/
inductive Call where
  | LoadDefaultConfig
  | NewSession (cfg : awsv1.Config)
  | GetCallerIdentityRequest
  | HeaderAdd (key value : GoString)
  | Presign (expire : Int)
  | DescribeCluster (name : GoString)
  | NewForConfig (config : rest.Config)
  | NewService
  | ClustersList (projectId zone : GoString)
  | ClientConfig (config : api.Config) (context : GoString)
      (overrides : clientcmd.ConfigOverrides)
deriving DecidableEq, Repr

/-- The external collaborators.  A Go result pair `(value, err)` is an
`Except`: `.error err` for a non-nil `err`, `.ok value` otherwise. -/
structure Env where
  /-- The function `config.LoadDefaultConfig(ctx)`. -/
  LoadDefaultConfig : Except GoError awsv2.Config
  /-- The function `session.NewSession(cfg)`. -/
  NewSession : awsv1.Config → Except GoError Session
  /-- The method `request.Presign(expire)` on the get-caller-identity request of the
  session, with the headers added to it; `expire` is a `time.Duration`. -/
  Presign : Session → List (GoString × GoString) → Int → Except GoError GoString
  /-- The method `clusterClient.DescribeCluster(ctx, {Name: name})`. -/
  DescribeCluster : GoString → Except GoError eks.DescribeClusterOutput
  /-- The Kubernetes client factory `dynamic.NewForConfig(config)`. -/
  NewForConfig : rest.Config → Except GoError DynamicClient
  /-- The function `container.NewService(ctx)`. -/
  NewService : Except GoError container.Service
  /-- The call `Projects.Zones.Clusters.List(projectId, zone).Context(ctx).Do()`. -/
  ClustersList : GoString → GoString → Except GoError container.ListClustersResponse
  /-- The call `clientcmd.NewNonInteractiveClientConfig(config, context, overrides,
  nil).ClientConfig()`. -/
  ClientConfig : api.Config → GoString → clientcmd.ConfigOverrides → Except GoError rest.Config

/-- How a Go function returning `(value, error)` ends: `(value, nil)`,
`(nil, err)`, or a run-time panic (nil pointer dereference). -/
inductive Result (α : Type) where
  | ok (value : α)
  | error (err : GoError)
  | panic
deriving DecidableEq, Repr

/-- A run: how it ends and the external calls it made, in order. -/
structure Run (α : Type) where
  result : Result α
  trace : List Call
deriving DecidableEq, Repr

/-! ## client/aws.go -/

/-- The constant `stsClusterHeader`. -/
def stsClusterHeader : GoString := str "x-k8s-aws-id"

/-- The constant `stsPresignPrefix`. -/
def stsPresignPrefix : GoString := str "k8s-aws-v1."

/-- The struct `eksConfig`.  The fields `context` and `clusterClient` hold
handles without data of their own: the calls made through them are the
`DescribeCluster` of the environment. -/
structure eksConfig where
  clusterName : GoString
  configv1 : awsv1.Config
  configV2 : awsv2.Config
deriving DecidableEq, Repr

/-- The constructor `NewEKSConfig`. -/
def NewEKSConfig (env : Env) (clusterName : GoString) : Run eksConfig :=
  match env.LoadDefaultConfig with
  | .error err =>
    ⟨.error (Errorf (str "error creating EKSConfig for cluster [%s] - %w")
      [.string clusterName, .error (some err)]), [.LoadDefaultConfig]⟩
  | .ok cfgv2 =>
    if cfgv2.Region = [] then
      ⟨.error (Errorf (str "missing region from config") []), [.LoadDefaultConfig]⟩
    else
      ⟨.ok { clusterName := clusterName, configv1 := { Region := some cfgv2.Region },
             configV2 := cfgv2 }, [.LoadDefaultConfig]⟩

/-- The method `eksConfig.NewForKubernetes`. -/
def eksConfig.NewForKubernetes (env : Env) (cfg : eksConfig) : Run DynamicClient :=
  let t1 := [Call.NewSession cfg.configv1]
  match env.NewSession cfg.configv1 with
  | .error err =>
    ⟨.error (Errorf (str "unable to create new sts session - %w") [.error (some err)]), t1⟩
  | .ok stsSession =>
    let t2 := t1 ++ [.GetCallerIdentityRequest, .HeaderAdd stsClusterHeader cfg.clusterName,
      .Presign 60]
    match env.Presign stsSession [(stsClusterHeader, cfg.clusterName)] 60 with
    | .error err =>
      ⟨.error (Errorf (str "error pre-signing request - %w") [.error (some err)]), t2⟩
    | .ok presignedURLString =>
      let t3 := t2 ++ [.DescribeCluster cfg.clusterName]
      match env.DescribeCluster cfg.clusterName with
      | .error err =>
        ⟨.error (Errorf (str "error describing cluster: [%s] - %w")
          [.string cfg.clusterName, .error (some err)]), t3⟩
      | .ok clusterInfo =>
        -- *clusterInfo.Cluster.CertificateAuthority.Data
        match clusterInfo.Cluster with
        | none => ⟨.panic, t3⟩
        | some cluster =>
          match cluster.CertificateAuthority with
          | none => ⟨.panic, t3⟩
          | some certificateAuthority =>
            match certificateAuthority.Data with
            | none => ⟨.panic, t3⟩
            | some data =>
              match base64.StdEncoding.DecodeString data with
              | (_, some err) =>
                ⟨.error (Errorf
                  (str "error retrieving certificate authority data from cluster [%s] - %w")
                  [.string cfg.clusterName, .error (some err)]), t3⟩
              | (cert, none) =>
                -- *clusterInfo.Cluster.Endpoint
                match cluster.Endpoint with
                | none => ⟨.panic, t3⟩
                | some endpoint =>
                  let config : rest.Config :=
                    { Host := endpoint
                      BearerToken := stsPresignPrefix ++
                        base64.RawURLEncoding.EncodeToString presignedURLString
                      TLSClientConfig := { CAData := cert } }
                  let t4 := t3 ++ [.NewForConfig config]
                  match env.NewForConfig config with
                  | .error err =>
                    ⟨.error (Errorf (str "error creating kubeconfig client - %w")
                      [.error (some err)]), t4⟩
                  | .ok clientset => ⟨.ok clientset, t4⟩

/-! ## client/google.go -/

/-- The constant `gkeAuthScope`. -/
def gkeAuthScope : GoString := str "https://www.googleapis.com/auth/cloud-platform"

/-- The struct `gkeConfig`.  The field `context` holds a handle without data
of its own. -/
structure gkeConfig where
  clusterName : GoString
  project : GoString
  zone : GoString
  clusterClient : container.Service
deriving DecidableEq, Repr

/-- The constructor `NewGKEConfig`. -/
def NewGKEConfig (env : Env) (clusterName project zone : GoString) : Run gkeConfig :=
  match env.NewService with
  | .error err =>
    ⟨.error (Errorf (str "error creating container cluster client - %w") [.error (some err)]),
      [.NewService]⟩
  | .ok clusterClient =>
    ⟨.ok { clusterName := clusterName, project := project, zone := zone,
           clusterClient := clusterClient }, [.NewService]⟩

/-- The loop `for _, cluster := range response.Clusters` of
`gkeConfig.NewForKubernetes` together with the return statement that follows
it.  `err` is the variable of the enclosing function, assigned by the list
call; the `err` of the loop body is declared there (`:=`) and does not
change it. -/
def gkeConfig.rangeClusters (env : Env) (cfg : gkeConfig) (kubeconfig : api.Config)
    (err : Option GoError) (trace : List Call) : List container.Cluster → Run DynamicClient
  | [] =>
    ⟨.error (Errorf
      (str "error finding container cluster [%s] in project [%s] and zone [%s] - %w")
      [.string cfg.clusterName, .string cfg.project, .string cfg.zone, .error err]), trace⟩
  | cluster :: clusters =>
    if cluster.Name ≠ cfg.clusterName then
      gkeConfig.rangeClusters env cfg kubeconfig err trace clusters
    else
      -- cluster.MasterAuth.ClusterCaCertificate
      match cluster.MasterAuth with
      | none => ⟨.panic, trace⟩
      | some masterAuth =>
        match base64.StdEncoding.DecodeString masterAuth.ClusterCaCertificate with
        | (_, some err) =>
          ⟨.error (Errorf (str "invalid certificate cluster [%s] cert [%s] - %w")
            [.string cfg.clusterName, .string masterAuth.ClusterCaCertificate,
             .error (some err)]), trace⟩
        | (cert, none) =>
          let kubeconfig := { kubeconfig with
            Clusters := kubeconfig.Clusters.set cfg.clusterName
              { CertificateAuthorityData := cert, Server := str "https://" ++ cluster.Endpoint } }
          let kubeconfig := { kubeconfig with
            Contexts := kubeconfig.Contexts.set cfg.clusterName
              { Cluster := cfg.clusterName, AuthInfo := cfg.clusterName } }
          let kubeconfig := { kubeconfig with
            AuthInfos := kubeconfig.AuthInfos.set cfg.clusterName
              { AuthProvider := some
                  { Name := str "gcp", Config := [(str "scopes", gkeAuthScope)] } } }
          let overrides : clientcmd.ConfigOverrides := { CurrentContext := cfg.clusterName }
          let t2 := trace ++ [.ClientConfig kubeconfig cfg.clusterName overrides]
          match env.ClientConfig kubeconfig cfg.clusterName overrides with
          | .error err =>
            ⟨.error (Errorf
              (str "%w - failed to create Kubernetes configuration for cluster [%s]")
              [.error (some err), .string cfg.clusterName]), t2⟩
          | .ok clientConfig =>
            let t3 := t2 ++ [.NewForConfig clientConfig]
            match env.NewForConfig clientConfig with
            | .error err => ⟨.error err, t3⟩
            | .ok client => ⟨.ok client, t3⟩

/-- The method `gkeConfig.NewForKubernetes`.  Its doc comment in the source, the
same as on the EKS method, speaks of an EKS cluster config and of the AWS SDK;
the body calls the Google container service and no AWS service. -/
def gkeConfig.NewForKubernetes (env : Env) (cfg : gkeConfig) : Run DynamicClient :=
  let kubeconfig : api.Config :=
    { APIVersion := str "v1", Kind := str "Config", Clusters := [], AuthInfos := [],
      Contexts := [] }
  let t1 := [Call.ClustersList cfg.project (str "-")]
  match env.ClustersList cfg.project (str "-") with
  | .error err =>
    ⟨.error (Errorf
      (str "error getting container cluster [%s] in project [%s] and zone [%s] - %w")
      [.string cfg.clusterName, .string cfg.project, .string cfg.zone, .error (some err)]), t1⟩
  | .ok response => gkeConfig.rangeClusters env cfg kubeconfig none t1 response.Clusters

/-! ## Observations on a run -/

/-- The connection configurations handed to the Kubernetes client factory, in order. -/
def factoryConfigs (trace : List Call) : List rest.Config :=
  trace.filterMap (fun c => match c with | .NewForConfig config => some config | _ => none)

/-- The calls to the client-config builder: kubeconfig, context name and overrides. -/
def builderCalls (trace : List Call) :
    List (api.Config × GoString × clientcmd.ConfigOverrides) :=
  trace.filterMap (fun c =>
    match c with | .ClientConfig config context overrides => some (config, context, overrides)
                 | _ => none)

/-- The durations passed to `Presign`, in nanoseconds. -/
def presignDurations (trace : List Call) : List Int :=
  trace.filterMap (fun c => match c with | .Presign expire => some expire | _ => none)

/-- The environment `env` with the list call answering `response`. -/
def Env.withClusters (env : Env) (response : container.ListClustersResponse) : Env :=
  { env with ClustersList := fun _ _ => .ok response }

/-- The first entry of the list whose name is the target name. -/
def firstMatch (cfg : gkeConfig) (clusters : List container.Cluster) : Option container.Cluster :=
  clusters.find? (fun c => decide (c.Name = cfg.clusterName))

/-- The entries of the list whose name is the target name. -/
def matching (cfg : gkeConfig) (clusters : List container.Cluster) : List container.Cluster :=
  clusters.filter (fun c => decide (c.Name = cfg.clusterName))

/-- The contract of the client-config builder that the host claim relies on:
a configuration it returns has, as host, the server of the cluster entry that
the selected context names. -/
def BuilderKeepsServer (env : Env) : Prop :=
  ∀ kubeconfig context overrides clientConfig,
    env.ClientConfig kubeconfig context overrides = .ok clientConfig →
    ∃ ctx cluster, kubeconfig.Contexts.get overrides.CurrentContext = some ctx ∧
      kubeconfig.Clusters.get ctx.Cluster = some cluster ∧ clientConfig.Host = cluster.Server

namespace base64

/-- The base64url alphabet of RFC 4648: `A-Z`, `a-z`, `0-9`, `-` and `_`. -/
def isBase64URLChar (c : Byte) : Bool :=
  (65 ≤ c.val && c.val ≤ 90) || (97 ≤ c.val && c.val ≤ 122) || (48 ≤ c.val && c.val ≤ 57) ||
    c.val = 45 || c.val = 95


end base64

/-! ## Sample inputs -/

/-- A client-config builder for the sample runs: it resolves the selected
context and copies the server, the CA and the auth-info of the entries it names. -/
def sampleBuilder (kubeconfig : api.Config) (_context : GoString)
    (overrides : clientcmd.ConfigOverrides) : Except GoError rest.Config :=
  match kubeconfig.Contexts.get overrides.CurrentContext with
  | none => .error (.errorString (str "context was not found for specified context"))
  | some ctx =>
    match kubeconfig.Clusters.get ctx.Cluster, kubeconfig.AuthInfos.get ctx.AuthInfo with
    | some cluster, some authInfo =>
      .ok { Host := cluster.Server, BearerToken := authInfo.Token,
            TLSClientConfig := { CAData := cluster.CertificateAuthorityData },
            AuthProvider := authInfo.AuthProvider }
    | _, _ => .error (.errorString (str "cluster has no server defined"))

/-- The clusters of the sample list response: `a`, `b` and `target`. -/
def sampleClusters : List container.Cluster :=
  [⟨str "a", str "10.0.0.1", some ⟨str "YQ=="⟩⟩, ⟨str "b", str "10.0.0.2", some ⟨str "Yg=="⟩⟩,
   ⟨str "target", str "10.0.0.3", some ⟨str "Y2VydA=="⟩⟩]

/-- An environment in which every collaborator succeeds. -/
def sampleEnv : Env where
  LoadDefaultConfig := .ok ⟨str "us-east-1"⟩
  NewSession := fun _ => .ok ⟨1⟩
  Presign := fun _ _ _ => .ok (str "https://sts.amazonaws.com/?Action=GetCallerIdentity")
  DescribeCluster := fun _ =>
    .ok ⟨some ⟨some ⟨some (str "Y2VydA==")⟩, some (str "https://eks.example.com")⟩⟩
  NewForConfig := fun _ => .ok ⟨2⟩
  NewService := .ok ⟨3⟩
  ClustersList := fun _ _ => .ok ⟨sampleClusters⟩
  ClientConfig := sampleBuilder

/-- An EKS configuration for the cluster `prod`. -/
def sampleEKS : eksConfig := ⟨str "prod", ⟨some (str "us-east-1")⟩, ⟨str "us-east-1"⟩⟩

/-- A GKE configuration for the cluster `target`. -/
def sampleGKE : gkeConfig := ⟨str "target", str "proj", str "us-central1-a", ⟨3⟩⟩

/-- A GKE configuration for the cluster `missing`, which the sample list does not have. -/
def missingGKE : gkeConfig := ⟨str "missing", str "proj", str "us-central1-a", ⟨3⟩⟩

/-- The sample environment with the CA `!!!`, which is not base64, for both providers. -/
def badCAEnv : Env :=
  { sampleEnv with
    DescribeCluster := fun _ =>
      .ok ⟨some ⟨some ⟨some (str "!!!")⟩, some (str "https://eks.example.com")⟩⟩
    ClustersList := fun _ _ => .ok ⟨[⟨str "target", str "10.0.0.3", some ⟨str "!!!"⟩⟩]⟩ }

/-- The sample environment with no region in the loaded configuration. -/
def noRegionEnv : Env := { sampleEnv with LoadDefaultConfig := .ok ⟨[]⟩ }

/-- The sample environment with no credentials to build the container client from. -/
def noCredentialsEnv : Env :=
  { sampleEnv with
    NewService := .error (.errorString (str "could not find default credentials")) }

/-- The sample environment with a describe response without certificate
authority (a cluster that is still being created) and a list entry without
master-auth record. -/
def absentFieldEnv : Env :=
  { sampleEnv with
    DescribeCluster := fun _ => .ok ⟨some ⟨none, none⟩⟩
    ClustersList := fun _ _ => .ok ⟨[⟨str "target", str "10.0.0.3", none⟩]⟩ }

/-! ## Lemmas on encoding/base64 -/

namespace base64

theorem or_low (x y k : Nat) (hy : y < 2 ^ k) (hx : 2 ^ k ∣ x) : x ||| y = x + y := by
  obtain ⟨a, rfl⟩ := hx
  exact (Nat.mul_add_lt_is_or hy a).symm

theorem pack3 (a b c : Nat) (hb : b < 256) (hc : c < 256) :
    a <<< 16 ||| b <<< 8 ||| c = a * 65536 + b * 256 + c := by
  rw [Nat.shiftLeft_eq, Nat.shiftLeft_eq]
  rw [or_low (a * 2 ^ 16) (b * 2 ^ 8) 16 (by omega) (by omega)]
  rw [or_low _ c 8 (by omega) (by omega)]

theorem pack4 (a b c d : Nat) (hb : b < 64) (hc : c < 64) (hd : d < 64) :
    a <<< 18 ||| b <<< 12 ||| c <<< 6 ||| d = a * 262144 + b * 4096 + c * 64 + d := by
  rw [Nat.shiftLeft_eq, Nat.shiftLeft_eq, Nat.shiftLeft_eq]
  rw [or_low (a * 2 ^ 18) (b * 2 ^ 12) 18 (by omega) (by omega)]
  rw [or_low _ (c * 2 ^ 6) 12 (by omega) (by omega)]
  rw [or_low _ d 6 (by omega) (by omega)]

theorem low6 (v : Nat) : v &&& 0x3F = v % 64 := Nat.and_pow_two_sub_one_eq_mod v 6

set_option maxRecDepth 100000 in
theorem url_alphabet (i : Fin 64) :
    RawURLEncoding.decodeMap (RawURLEncoding.encodeAt i.val) = i.val ∧
    isBase64URLChar (RawURLEncoding.encodeAt i.val) = true := by
  revert i; decide


theorem url_decodeMap (i : Nat) (h : i < 64) :
    RawURLEncoding.decodeMap (RawURLEncoding.encodeAt i) = i := (url_alphabet ⟨i, h⟩).1

theorem scan4 (enc : Encoding) (c0 c1 c2 c3 : Byte) (s0 s1 s2 s3 : Nat)
    (h0 : enc.decodeMap c0 = s0) (h1 : enc.decodeMap c1 = s1) (h2 : enc.decodeMap c2 = s2)
    (h3 : enc.decodeMap c3 = s3) (n0 : s0 ≠ 255) (n1 : s1 ≠ 255) (n2 : s2 ≠ 255) (n3 : s3 ≠ 255)
    (rest : List Byte) (si : Nat) :
    enc.scanQuantum (c0 :: c1 :: c2 :: c3 :: rest) 0 [0, 0, 0, 0] si
      = .brk 4 [s0, s1, s2, s3] (si + 4) rest none := by
  cases rest <;> simp [Encoding.scanQuantum, h0, h1, h2, h3, n0, n1, n2, n3]

theorem scan3 (enc : Encoding) (hp : enc.padChar = none) (c0 c1 c2 : Byte) (s0 s1 s2 : Nat)
    (h0 : enc.decodeMap c0 = s0) (h1 : enc.decodeMap c1 = s1) (h2 : enc.decodeMap c2 = s2)
    (n0 : s0 ≠ 255) (n1 : s1 ≠ 255) (n2 : s2 ≠ 255) (si : Nat) :
    enc.scanQuantum [c0, c1, c2] 0 [0, 0, 0, 0] si = .brk 3 [s0, s1, s2, 0] (si + 3) [] none := by
  simp [Encoding.scanQuantum, h0, h1, h2, n0, n1, n2, hp]

theorem scan2 (enc : Encoding) (hp : enc.padChar = none) (c0 c1 : Byte) (s0 s1 : Nat)
    (h0 : enc.decodeMap c0 = s0) (h1 : enc.decodeMap c1 = s1)
    (n0 : s0 ≠ 255) (n1 : s1 ≠ 255) (si : Nat) :
    enc.scanQuantum [c0, c1] 0 [0, 0, 0, 0] si = .brk 2 [s0, s1, 0, 0] (si + 2) [] none := by
  simp [Encoding.scanQuantum, h0, h1, n0, n1, hp]


theorem byte_ofNat (n : Nat) (a : Byte) (h : n % 256 = a.val) : (Fin.ofNat n : Byte) = a := by
  apply Fin.ext
  simpa [Fin.ofNat] using h

theorem quantum4 (a b c : Byte) (rest : List Byte) (si : Nat) :
    RawURLEncoding.decodeQuantum (RawURLEncoding.Encode [a, b, c] ++ rest) si
      = ⟨si + 4, rest, [a, b, c], none⟩ := by
  have ha := a.isLt
  have hb := b.isLt
  have hc := c.isLt
  simp only [Encoding.Encode, low6, Nat.shiftRight_eq_div_pow, pack3 a.val b.val c.val hb hc,
    List.cons_append, List.nil_append]
  simp only [Encoding.decodeQuantum]
  rw [scan4 RawURLEncoding _ _ _ _ _ _ _ _
    (url_decodeMap _ (Nat.mod_lt _ (by decide))) (url_decodeMap _ (Nat.mod_lt _ (by decide)))
    (url_decodeMap _ (Nat.mod_lt _ (by decide))) (url_decodeMap _ (Nat.mod_lt _ (by decide)))
    (by omega) (by omega) (by omega) (by omega)]
  simp only [List.getD_cons_zero, List.getD_cons_succ]
  rw [pack4 _ _ _ _ (Nat.mod_lt _ (by decide)) (Nat.mod_lt _ (by decide))
    (Nat.mod_lt _ (by decide))]
  simp only [Nat.shiftRight_eq_div_pow]
  congr 1
  rw [byte_ofNat _ a (by omega), byte_ofNat _ b (by omega), byte_ofNat _ c (by omega)]


theorem url_padding (n : Nat) : RawURLEncoding.padding n = [] := rfl

theorem url_strict : RawURLEncoding.strict = false := rfl

theorem pack2 (a b : Nat) (hb : b < 256) : a <<< 16 ||| b <<< 8 = a * 65536 + b * 256 := by
  rw [Nat.shiftLeft_eq, Nat.shiftLeft_eq]
  rw [or_low (a * 2 ^ 16) (b * 2 ^ 8) 16 (by omega) (by omega)]


theorem quantum3 (a b : Byte) (si : Nat) :
    RawURLEncoding.decodeQuantum (RawURLEncoding.Encode [a, b]) si
      = ⟨si + 3, [], [a, b], none⟩ := by
  have ha := a.isLt
  have hb := b.isLt
  simp only [Encoding.Encode, low6, Nat.shiftRight_eq_div_pow, pack2 a.val b.val hb,
    url_padding]
  simp only [Encoding.decodeQuantum]
  rw [scan3 RawURLEncoding rfl _ _ _ _ _ _
    (url_decodeMap _ (Nat.mod_lt _ (by decide))) (url_decodeMap _ (Nat.mod_lt _ (by decide)))
    (url_decodeMap _ (Nat.mod_lt _ (by decide))) (by omega) (by omega) (by omega)]
  simp only [List.getD_cons_zero, List.getD_cons_succ]
  simp only [url_strict, Bool.false_and, Bool.false_eq_true, if_false]
  have h4 := pack4 ((a.val * 65536 + b.val * 256) / 2 ^ 18 % 64)
    ((a.val * 65536 + b.val * 256) / 2 ^ 12 % 64) ((a.val * 65536 + b.val * 256) / 2 ^ 6 % 64) 0
    (Nat.mod_lt _ (by decide)) (Nat.mod_lt _ (by decide)) (by decide)
  rw [h4]
  simp only [Nat.shiftRight_eq_div_pow]
  congr 1
  rw [byte_ofNat _ a (by omega), byte_ofNat _ b (by omega)]

theorem quantum2 (a : Byte) (si : Nat) :
    RawURLEncoding.decodeQuantum (RawURLEncoding.Encode [a]) si = ⟨si + 2, [], [a], none⟩ := by
  have ha := a.isLt
  simp only [Encoding.Encode, low6, Nat.shiftRight_eq_div_pow, Nat.shiftLeft_eq,
    url_padding]
  simp only [Encoding.decodeQuantum]
  rw [scan2 RawURLEncoding rfl _ _ _ _
    (url_decodeMap _ (Nat.mod_lt _ (by decide))) (url_decodeMap _ (Nat.mod_lt _ (by decide)))
    (by omega) (by omega)]
  simp only [List.getD_cons_zero, List.getD_cons_succ]
  simp only [url_strict, Bool.false_and, Bool.false_eq_true, if_false]
  have h4 := pack4 (a.val * 2 ^ 16 / 2 ^ 18 % 64) (a.val * 2 ^ 16 / 2 ^ 12 % 64) 0 0
    (Nat.mod_lt _ (by decide)) (by decide) (by decide)
  rw [h4]
  simp only [Nat.shiftRight_eq_div_pow]
  congr 1
  rw [byte_ofNat _ a (by omega)]

theorem decodeLoop_encode (src : List Byte) :
    ∀ (fuel si : Nat) (dst : List Byte), (RawURLEncoding.Encode src).length ≤ fuel →
      RawURLEncoding.decodeLoop fuel (RawURLEncoding.Encode src) si dst = (dst ++ src, none) := by
  induction src using Encoding.Encode.induct RawURLEncoding with
  | case1 a b c rest ih =>
    intro fuel si dst hf
    have hq := quantum4 a b c (RawURLEncoding.Encode rest) si
    simp only [Encoding.Encode, List.cons_append, List.nil_append] at hq hf ⊢
    cases fuel with
    | zero => simp at hf
    | succ fuel =>
      simp only [Encoding.decodeLoop, hq]
      rw [ih fuel (si + 4) _ (by simp at hf; omega)]
      simp
  | case2 a b =>
    intro fuel si dst hf
    have hq := quantum3 a b si
    simp only [Encoding.Encode] at hq hf ⊢
    cases fuel with
    | zero => simp at hf
    | succ fuel => simp [Encoding.decodeLoop, hq]
  | case3 a =>
    intro fuel si dst hf
    have hq := quantum2 a si
    simp only [Encoding.Encode] at hq hf ⊢
    cases fuel with
    | zero => simp at hf
    | succ fuel => simp [Encoding.decodeLoop, hq]
  | case4 => intro fuel si dst _; cases fuel <;> simp [Encoding.Encode, Encoding.decodeLoop]

theorem DecodeString_EncodeToString (src : List Byte) :
    RawURLEncoding.DecodeString (RawURLEncoding.EncodeToString src) = (src, none) := by
  simpa [Encoding.DecodeString, Encoding.EncodeToString] using
    decodeLoop_encode src _ 0 [] (Nat.le_refl _)

theorem Encode_alphabet (src : List Byte) :
    ∀ c ∈ RawURLEncoding.Encode src, isBase64URLChar c = true := by
  induction src using Encoding.Encode.induct RawURLEncoding with
  | case1 a b c rest ih =>
    simp only [Encoding.Encode, low6, List.mem_cons]
    rintro x (h | h | h | h | h)
    · exact h ▸ (url_alphabet ⟨_, Nat.mod_lt _ (by decide)⟩).2
    · exact h ▸ (url_alphabet ⟨_, Nat.mod_lt _ (by decide)⟩).2
    · exact h ▸ (url_alphabet ⟨_, Nat.mod_lt _ (by decide)⟩).2
    · exact h ▸ (url_alphabet ⟨_, Nat.mod_lt _ (by decide)⟩).2
    · exact ih x h
  | case2 a b =>
    simp only [Encoding.Encode, low6, List.mem_cons, url_padding]
    rintro x (h | h | h | h)
    · exact h ▸ (url_alphabet ⟨_, Nat.mod_lt _ (by decide)⟩).2
    · exact h ▸ (url_alphabet ⟨_, Nat.mod_lt _ (by decide)⟩).2
    · exact h ▸ (url_alphabet ⟨_, Nat.mod_lt _ (by decide)⟩).2
    · simp at h
  | case3 a =>
    simp only [Encoding.Encode, low6, List.mem_cons, url_padding]
    rintro x (h | h | h)
    · exact h ▸ (url_alphabet ⟨_, Nat.mod_lt _ (by decide)⟩).2
    · exact h ▸ (url_alphabet ⟨_, Nat.mod_lt _ (by decide)⟩).2
    · simp at h
  | case4 => simp [Encoding.Encode]


end base64

/-! ## Lemmas on fmt.Errorf -/

theorem Errorf_w (p q : String) (err : GoError)
    (h : Errorf (str p) [.error (some err)] = .wrapError (str q ++ (err.Error ++ [])) err) :
    Errorf (str p) [.error (some err)] = .wrapError (str q ++ err.Error) err := by
  simpa using h

theorem Errorf_s_w (p q : String) (a : GoString) (err : GoError)
    (h : Errorf (str p) [.string a, .error (some err)]
      = .wrapError (str q ++ (a ++ (str "] - " ++ (err.Error ++ [])))) err) :
    Errorf (str p) [.string a, .error (some err)]
      = .wrapError (str q ++ a ++ str "] - " ++ err.Error) err := by
  simpa using h

theorem Errorf_EKSConfig (n : GoString) (err : GoError) :
    Errorf (str "error creating EKSConfig for cluster [%s] - %w") [.string n, .error (some err)]
      = .wrapError (str "error creating EKSConfig for cluster [" ++ n ++ str "] - " ++ err.Error)
          err :=
  Errorf_s_w _ _ n err rfl

theorem Errorf_region :
    Errorf (str "missing region from config") [] = .errorString (str "missing region from config") :=
  rfl

theorem Errorf_session (err : GoError) :
    Errorf (str "unable to create new sts session - %w") [.error (some err)]
      = .wrapError (str "unable to create new sts session - " ++ err.Error) err :=
  Errorf_w _ _ err rfl

theorem Errorf_presign (err : GoError) :
    Errorf (str "error pre-signing request - %w") [.error (some err)]
      = .wrapError (str "error pre-signing request - " ++ err.Error) err :=
  Errorf_w _ _ err rfl

theorem Errorf_describe (n : GoString) (err : GoError) :
    Errorf (str "error describing cluster: [%s] - %w") [.string n, .error (some err)]
      = .wrapError (str "error describing cluster: [" ++ n ++ str "] - " ++ err.Error) err :=
  Errorf_s_w _ _ n err rfl

theorem Errorf_certificate (n : GoString) (err : GoError) :
    Errorf (str "error retrieving certificate authority data from cluster [%s] - %w")
        [.string n, .error (some err)]
      = .wrapError (str "error retrieving certificate authority data from cluster [" ++ n ++
          str "] - " ++ err.Error) err :=
  Errorf_s_w _ _ n err rfl

theorem Errorf_kubeconfig (err : GoError) :
    Errorf (str "error creating kubeconfig client - %w") [.error (some err)]
      = .wrapError (str "error creating kubeconfig client - " ++ err.Error) err :=
  Errorf_w _ _ err rfl

theorem Errorf_service (err : GoError) :
    Errorf (str "error creating container cluster client - %w") [.error (some err)]
      = .wrapError (str "error creating container cluster client - " ++ err.Error) err :=
  Errorf_w _ _ err rfl

theorem Errorf_list (n p z : GoString) (err : GoError) :
    Errorf (str "error getting container cluster [%s] in project [%s] and zone [%s] - %w")
        [.string n, .string p, .string z, .error (some err)]
      = .wrapError (str "error getting container cluster [" ++ n ++ str "] in project [" ++ p ++
          str "] and zone [" ++ z ++ str "] - " ++ err.Error) err := by
  have h : Errorf (str "error getting container cluster [%s] in project [%s] and zone [%s] - %w")
        [.string n, .string p, .string z, .error (some err)]
      = .wrapError (str "error getting container cluster [" ++ (n ++ (str "] in project [" ++
          (p ++ (str "] and zone [" ++ (z ++ (str "] - " ++ (err.Error ++ [])))))))) err := rfl
  simpa using h

theorem Errorf_invalid (n c : GoString) (err : GoError) :
    Errorf (str "invalid certificate cluster [%s] cert [%s] - %w")
        [.string n, .string c, .error (some err)]
      = .wrapError (str "invalid certificate cluster [" ++ n ++ str "] cert [" ++ c ++
          str "] - " ++ err.Error) err := by
  have h : Errorf (str "invalid certificate cluster [%s] cert [%s] - %w")
        [.string n, .string c, .error (some err)]
      = .wrapError (str "invalid certificate cluster [" ++ (n ++ (str "] cert [" ++ (c ++
          (str "] - " ++ (err.Error ++ [])))))) err := rfl
  simpa using h

theorem Errorf_builder (n : GoString) (err : GoError) :
    Errorf (str "%w - failed to create Kubernetes configuration for cluster [%s]")
        [.error (some err), .string n]
      = .wrapError (err.Error ++
          str " - failed to create Kubernetes configuration for cluster [" ++ n ++ str "]")
          err := by
  have h : Errorf (str "%w - failed to create Kubernetes configuration for cluster [%s]")
        [.error (some err), .string n]
      = .wrapError (err.Error ++
          (str " - failed to create Kubernetes configuration for cluster [" ++ (n ++ str "]")))
          err := rfl
  simpa using h

theorem Errorf_notFound (n p z : GoString) (err : Option GoError) (h : err = none) :
    Errorf (str "error finding container cluster [%s] in project [%s] and zone [%s] - %w")
        [.string n, .string p, .string z, .error err]
      = .errorString (str "error finding container cluster [" ++ n ++ str "] in project [" ++ p ++
          str "] and zone [" ++ z ++ str "] - %!w(<nil>)") := by
  subst h
  have h : Errorf (str "error finding container cluster [%s] in project [%s] and zone [%s] - %w")
        [.string n, .string p, .string z, .error none]
      = .errorString (str "error finding container cluster [" ++ (n ++ (str "] in project [" ++ (p ++
          (str "] and zone [" ++ (z ++ str "] - %!w(<nil>)")))))) := rfl
  simpa using h

/-! ## Lemmas on the EKS adapter -/

/-- The run of the EKS adapter once the session, the presigned URL, the
description and the decoded CA are there. -/
theorem eks_run (env : Env) (cfg : eksConfig) (s : Session) (u data endpoint : GoString)
    (cert : List Byte)
    (hs : env.NewSession cfg.configv1 = .ok s)
    (hu : env.Presign s [(stsClusterHeader, cfg.clusterName)] 60 = .ok u)
    (hd : env.DescribeCluster cfg.clusterName = .ok ⟨some ⟨some ⟨some data⟩, some endpoint⟩⟩)
    (hc : base64.StdEncoding.DecodeString data = (cert, none)) :
    cfg.NewForKubernetes env =
      ⟨match env.NewForConfig
          { Host := endpoint,
            BearerToken := stsPresignPrefix ++ base64.RawURLEncoding.EncodeToString u,
            TLSClientConfig := { CAData := cert } } with
        | .error err =>
          .error (.wrapError (str "error creating kubeconfig client - " ++ err.Error) err)
        | .ok client => .ok client,
       [.NewSession cfg.configv1, .GetCallerIdentityRequest,
        .HeaderAdd stsClusterHeader cfg.clusterName, .Presign 60,
        .DescribeCluster cfg.clusterName,
        .NewForConfig
          { Host := endpoint,
            BearerToken := stsPresignPrefix ++ base64.RawURLEncoding.EncodeToString u,
            TLSClientConfig := { CAData := cert } }]⟩ := by
  simp only [eksConfig.NewForKubernetes, hs, hu, hd, hc]
  split <;> simp [Errorf_kubeconfig]

/-- Whatever the EKS adapter hands to the factory carries the encoded presigned URL. -/
theorem eks_factory_token (env : Env) (cfg : eksConfig) (s : Session) (u : GoString)
    (config : rest.Config)
    (hs : env.NewSession cfg.configv1 = .ok s)
    (hu : env.Presign s [(stsClusterHeader, cfg.clusterName)] 60 = .ok u)
    (hc : config ∈ factoryConfigs (cfg.NewForKubernetes env).trace) :
    config.BearerToken = stsPresignPrefix ++ base64.RawURLEncoding.EncodeToString u := by
  simp only [eksConfig.NewForKubernetes, hs, hu] at hc
  repeat' split at hc
  all_goals simp [factoryConfigs] at hc
  all_goals simp [hc]

/-! ## The claims on the EKS adapter -/

/-- C1: the bearer token that the EKS `NewForKubernetes` puts in the
connection configuration begins with the marker `k8s-aws-v1.`; what follows
the marker has only characters of the base64url alphabet, none of them the
padding `=`, and decodes with the unpadded base64url decoder to exactly the
bytes of the presigned URL `u` that the signer returned. -/
theorem eks_bearer_token (env : Env) (cfg : eksConfig) (s : Session) (u : GoString)
    (config : rest.Config)
    (hs : env.NewSession cfg.configv1 = .ok s)
    (hu : env.Presign s [(stsClusterHeader, cfg.clusterName)] 60 = .ok u)
    (hc : config ∈ factoryConfigs (cfg.NewForKubernetes env).trace) :
    stsPresignPrefix = str "k8s-aws-v1." ∧
    stsPresignPrefix <+: config.BearerToken ∧
    (∀ c ∈ config.BearerToken.drop stsPresignPrefix.length,
      base64.isBase64URLChar c = true ∧ c ≠ base64.StdPadding) ∧
    base64.RawURLEncoding.DecodeString (config.BearerToken.drop stsPresignPrefix.length)
      = (u, none) := by
  have ht := eks_factory_token env cfg s u config hs hu hc
  rw [ht, List.drop_left]
  refine ⟨rfl, List.prefix_append _ _, fun c hmem => ?_, base64.DecodeString_EncodeToString u⟩
  have hc := base64.Encode_alphabet u c hmem
  refine ⟨hc, ?_⟩
  rintro rfl
  revert hc
  decide

set_option maxRecDepth 100000 in
/-- The witness of C1: the sample run hands one configuration to the factory. -/
theorem eks_bearer_token_witness :
    stsPresignPrefix = str "k8s-aws-v1." ∧
    stsPresignPrefix <+: (stsPresignPrefix ++ base64.RawURLEncoding.EncodeToString
      (str "https://sts.amazonaws.com/?Action=GetCallerIdentity")) ∧
    (∀ c ∈ (stsPresignPrefix ++ base64.RawURLEncoding.EncodeToString
        (str "https://sts.amazonaws.com/?Action=GetCallerIdentity")).drop stsPresignPrefix.length,
      base64.isBase64URLChar c = true ∧ c ≠ base64.StdPadding) ∧
    base64.RawURLEncoding.DecodeString ((stsPresignPrefix ++ base64.RawURLEncoding.EncodeToString
        (str "https://sts.amazonaws.com/?Action=GetCallerIdentity")).drop stsPresignPrefix.length)
      = (str "https://sts.amazonaws.com/?Action=GetCallerIdentity", none) :=
  eks_bearer_token sampleEnv sampleEKS ⟨1⟩
    (str "https://sts.amazonaws.com/?Action=GetCallerIdentity")
    { Host := str "https://eks.example.com",
      BearerToken := stsPresignPrefix ++ base64.RawURLEncoding.EncodeToString
        (str "https://sts.amazonaws.com/?Action=GetCallerIdentity"),
      TLSClientConfig := { CAData := str "cert" } }
    rfl rfl (by decide)

/-- C2: the EKS `NewForKubernetes` calls `Presign` once, with the duration
`60`, which is 60 nanoseconds and not 60 seconds (`60 * time.Second`). -/
theorem eks_presign_duration (env : Env) (cfg : eksConfig) (s : Session)
    (hs : env.NewSession cfg.configv1 = .ok s) :
    presignDurations (cfg.NewForKubernetes env).trace = [60] ∧
    (60 : Int) ≠ 60 * time.Second ∧ 60 * time.Second = (60000000000 : Int) := by
  refine ⟨?_, by decide, by decide⟩
  simp only [eksConfig.NewForKubernetes, hs]
  repeat' split
  all_goals simp [presignDurations]

set_option maxRecDepth 100000 in
/-- The witness of C2, on the sample run. -/
theorem eks_presign_duration_witness :
    presignDurations (sampleEKS.NewForKubernetes sampleEnv).trace = [60] ∧
    (60 : Int) ≠ 60 * time.Second ∧ 60 * time.Second = (60000000000 : Int) :=
  eks_presign_duration sampleEnv sampleEKS ⟨1⟩ rfl

/-! ## Lemmas on the GKE adapter -/

/-- The loop skips every entry before the first one with the target name. -/
theorem rangeClusters_matching (env : Env) (cfg : gkeConfig) (kubeconfig : api.Config)
    (err : Option GoError) (trace : List Call) (clusters : List container.Cluster) :
    gkeConfig.rangeClusters env cfg kubeconfig err trace clusters
      = gkeConfig.rangeClusters env cfg kubeconfig err trace (matching cfg clusters) := by
  induction clusters with
  | nil => rfl
  | cons c cs ih =>
    by_cases h : c.Name = cfg.clusterName
    · have hm : matching cfg (c :: cs) = c :: matching cfg cs := by simp [matching, h]
      rw [hm]
      simp only [gkeConfig.rangeClusters, h, ne_eq, not_true_eq_false, if_false]
    · have hm : matching cfg (c :: cs) = matching cfg cs := by simp [matching, h]
      rw [hm, ← ih]
      simp only [gkeConfig.rangeClusters, h, ne_eq, not_false_eq_true, if_true]

/-- The loop over a list without the target name ends in the return statement after it. -/
theorem rangeClusters_none (env : Env) (cfg : gkeConfig) (kubeconfig : api.Config)
    (err : Option GoError) (trace : List Call) (clusters : List container.Cluster)
    (h : ∀ c ∈ clusters, c.Name ≠ cfg.clusterName) :
    gkeConfig.rangeClusters env cfg kubeconfig err trace clusters
      = ⟨.error (Errorf
          (str "error finding container cluster [%s] in project [%s] and zone [%s] - %w")
          [.string cfg.clusterName, .string cfg.project, .string cfg.zone, .error err]),
         trace⟩ := by
  induction clusters with
  | nil => rfl
  | cons c cs ih =>
    have hc := h c (List.mem_cons_self _ _)
    simp only [gkeConfig.rangeClusters, hc, ne_eq, not_false_eq_true, if_true]
    exact ih (fun d hd => h d (List.mem_cons_of_mem _ hd))

/-- The loop runs its body on the first entry with the target name. -/
theorem rangeClusters_first (env : Env) (cfg : gkeConfig) (kubeconfig : api.Config)
    (err : Option GoError) (trace : List Call) (clusters : List container.Cluster)
    (cluster : container.Cluster) (h : firstMatch cfg clusters = some cluster) :
    gkeConfig.rangeClusters env cfg kubeconfig err trace clusters
      = gkeConfig.rangeClusters env cfg kubeconfig err trace [cluster] := by
  induction clusters with
  | nil => simp [firstMatch] at h
  | cons c cs ih =>
    by_cases hc : c.Name = cfg.clusterName
    · have : c = cluster := by simpa [firstMatch, hc] using h
      subst this
      simp only [gkeConfig.rangeClusters, hc, ne_eq, not_true_eq_false, if_false]
    · have h2 : firstMatch cfg cs = some cluster := by simpa [firstMatch, hc] using h
      rw [← ih h2]
      simp only [gkeConfig.rangeClusters, hc, ne_eq, not_false_eq_true, if_true]

/-- The loop consults the environment only for the builder and the factory. -/
theorem rangeClusters_env (env env2 : Env) (cfg : gkeConfig) (kubeconfig : api.Config)
    (err : Option GoError) (trace : List Call)
    (hb : env.ClientConfig = env2.ClientConfig) (hf : env.NewForConfig = env2.NewForConfig)
    (clusters : List container.Cluster) :
    gkeConfig.rangeClusters env cfg kubeconfig err trace clusters
      = gkeConfig.rangeClusters env2 cfg kubeconfig err trace clusters := by
  induction clusters with
  | nil => rfl
  | cons c cs ih => simp only [gkeConfig.rangeClusters, ih, hb, hf]

theorem firstMatch_name (cfg : gkeConfig) (clusters : List container.Cluster)
    (cluster : container.Cluster) (h : firstMatch cfg clusters = some cluster) :
    cluster.Name = cfg.clusterName := by
  have := List.find?_some h
  simpa using this

/-- The kubeconfig that the loop body assembles for a matched entry. -/
theorem gke_run (env : Env) (cfg : gkeConfig) (response : container.ListClustersResponse)
    (cluster : container.Cluster) (masterAuth : container.MasterAuth) (cert : List Byte)
    (hl : env.ClustersList cfg.project (str "-") = .ok response)
    (hf : firstMatch cfg response.Clusters = some cluster)
    (hm : cluster.MasterAuth = some masterAuth)
    (hd : base64.StdEncoding.DecodeString masterAuth.ClusterCaCertificate = (cert, none)) :
    cfg.NewForKubernetes env =
      match env.ClientConfig
          { APIVersion := str "v1", Kind := str "Config",
            Clusters := [(cfg.clusterName,
              { Server := str "https://" ++ cluster.Endpoint, CertificateAuthorityData := cert })],
            AuthInfos := [(cfg.clusterName,
              { Token := [], AuthProvider := some
                  { Name := str "gcp", Config := [(str "scopes", gkeAuthScope)] } })],
            Contexts := [(cfg.clusterName,
              { Cluster := cfg.clusterName, AuthInfo := cfg.clusterName })] }
          cfg.clusterName { CurrentContext := cfg.clusterName } with
      | .error err =>
        ⟨.error (.wrapError (err.Error ++
            str " - failed to create Kubernetes configuration for cluster [" ++
            cfg.clusterName ++ str "]") err),
         [.ClustersList cfg.project (str "-"),
          .ClientConfig
            { APIVersion := str "v1", Kind := str "Config",
              Clusters := [(cfg.clusterName,
                { Server := str "https://" ++ cluster.Endpoint,
                  CertificateAuthorityData := cert })],
              AuthInfos := [(cfg.clusterName,
                { Token := [], AuthProvider := some
                    { Name := str "gcp", Config := [(str "scopes", gkeAuthScope)] } })],
              Contexts := [(cfg.clusterName,
                { Cluster := cfg.clusterName, AuthInfo := cfg.clusterName })] }
            cfg.clusterName { CurrentContext := cfg.clusterName }]⟩
      | .ok clientConfig =>
        ⟨match env.NewForConfig clientConfig with
          | .error err => .error err
          | .ok client => .ok client,
         [.ClustersList cfg.project (str "-"),
          .ClientConfig
            { APIVersion := str "v1", Kind := str "Config",
              Clusters := [(cfg.clusterName,
                { Server := str "https://" ++ cluster.Endpoint,
                  CertificateAuthorityData := cert })],
              AuthInfos := [(cfg.clusterName,
                { Token := [], AuthProvider := some
                    { Name := str "gcp", Config := [(str "scopes", gkeAuthScope)] } })],
              Contexts := [(cfg.clusterName,
                { Cluster := cfg.clusterName, AuthInfo := cfg.clusterName })] }
            cfg.clusterName { CurrentContext := cfg.clusterName },
          .NewForConfig clientConfig]⟩ := by
  have hn := firstMatch_name cfg _ _ hf
  simp only [gkeConfig.NewForKubernetes, hl]
  rw [rangeClusters_first env cfg _ _ _ _ cluster hf]
  simp only [gkeConfig.rangeClusters, hn, ne_eq, not_true_eq_false, if_false, hm, hd, GoMap.set,
    List.any_nil, Bool.false_eq_true, List.nil_append]
  split
  · rename_i h
    simp [h, Errorf_builder]
  · rename_i h
    simp only [h]
    split <;> rename_i h2 <;> simp [h2]

theorem GoMap_get_single {V : Type} (k : GoString) (v : V) :
    GoMap.get [(k, v)] k = some v := by
  simp [GoMap.get, List.lookup]

/-- The sample builder keeps the server of the selected cluster as host. -/
theorem sampleBuilder_keeps : BuilderKeepsServer sampleEnv := by
  intro kubeconfig context overrides clientConfig h
  simp only [sampleEnv, sampleBuilder] at h
  split at h
  · simp at h
  · rename_i ctx hctx
    split at h
    · rename_i cluster authInfo hcl _
      refine ⟨ctx, cluster, hctx, hcl, ?_⟩
      simp only [Except.ok.injEq] at h
      rw [← h]
    · simp at h

/-! ## The claims on both adapters and on the GKE adapter -/

/-- C3: with a matching provider response and a decodable CA, the host of
the connection configuration handed to the Kubernetes client factory is the
provider-reported endpoint.  EKS: the factory gets one configuration, whose
host is the describe-cluster endpoint unchanged.  GKE: the cluster entry of
the kubeconfig given to the client-config builder has the server `https://`
followed by the endpoint of the matched list entry, the factory gets exactly
the configuration the builder returns, and, the builder keeping the server
of the selected cluster as host, that host is `https://` followed by the
endpoint. -/
theorem host_is_endpoint (env : Env) :
    (∀ (cfg : eksConfig) (s : Session) (u data endpoint : GoString) (cert : List Byte),
      env.NewSession cfg.configv1 = .ok s →
      env.Presign s [(stsClusterHeader, cfg.clusterName)] 60 = .ok u →
      env.DescribeCluster cfg.clusterName = .ok ⟨some ⟨some ⟨some data⟩, some endpoint⟩⟩ →
      base64.StdEncoding.DecodeString data = (cert, none) →
      ∃ config, factoryConfigs (cfg.NewForKubernetes env).trace = [config] ∧
        config.Host = endpoint) ∧
    (∀ (cfg : gkeConfig) (response : container.ListClustersResponse)
      (cluster : container.Cluster) (masterAuth : container.MasterAuth) (cert : List Byte),
      env.ClustersList cfg.project (str "-") = .ok response →
      firstMatch cfg response.Clusters = some cluster →
      cluster.MasterAuth = some masterAuth →
      base64.StdEncoding.DecodeString masterAuth.ClusterCaCertificate = (cert, none) →
      ∃ kubeconfig,
        builderCalls (cfg.NewForKubernetes env).trace
          = [(kubeconfig, cfg.clusterName, { CurrentContext := cfg.clusterName })] ∧
        (∃ entry, kubeconfig.Clusters.get cfg.clusterName = some entry ∧
          entry.Server = str "https://" ++ cluster.Endpoint) ∧
        (∀ clientConfig,
          env.ClientConfig kubeconfig cfg.clusterName { CurrentContext := cfg.clusterName }
            = .ok clientConfig →
          factoryConfigs (cfg.NewForKubernetes env).trace = [clientConfig]) ∧
        (BuilderKeepsServer env → ∀ clientConfig ∈ factoryConfigs (cfg.NewForKubernetes env).trace,
          clientConfig.Host = str "https://" ++ cluster.Endpoint)) := by
  constructor
  · intro cfg s u data endpoint cert hs hu hd hc
    rw [eks_run env cfg s u data endpoint cert hs hu hd hc]
    exact ⟨{ Host := endpoint,
             BearerToken := stsPresignPrefix ++ base64.RawURLEncoding.EncodeToString u,
             TLSClientConfig := { CAData := cert } }, by simp [factoryConfigs], rfl⟩
  · intro cfg response cluster masterAuth cert hl hf hm hd
    rw [gke_run env cfg response cluster masterAuth cert hl hf hm hd]
    refine ⟨{ APIVersion := str "v1", Kind := str "Config",
              Clusters := [(cfg.clusterName,
                { Server := str "https://" ++ cluster.Endpoint,
                  CertificateAuthorityData := cert })],
              AuthInfos := [(cfg.clusterName,
                { Token := [], AuthProvider := some
                    { Name := str "gcp", Config := [(str "scopes", gkeAuthScope)] } })],
              Contexts := [(cfg.clusterName,
                { Cluster := cfg.clusterName, AuthInfo := cfg.clusterName })] },
      ?_, ⟨_, GoMap_get_single _ _, rfl⟩, ?_, ?_⟩
    · split <;> simp [builderCalls]
    · intro clientConfig h
      simp [h, factoryConfigs]
    · intro hk clientConfig hmem
      split at hmem
      · simp [factoryConfigs] at hmem
      · rename_i rc hrc
        simp only [factoryConfigs, List.filterMap_cons, List.filterMap_nil, List.mem_singleton]
          at hmem
        subst hmem
        obtain ⟨ctx, cl, h1, h2, h3⟩ := hk _ _ _ _ hrc
        simp only [GoMap_get_single, Option.some.injEq] at h1
        subst h1
        simp only [GoMap_get_single, Option.some.injEq] at h2
        subst h2
        exact h3

set_option maxRecDepth 100000 in
/-- The witness of C3: the sample EKS run and the sample GKE run for `target`. -/
theorem host_is_endpoint_witness :
    (∃ config, factoryConfigs (sampleEKS.NewForKubernetes sampleEnv).trace = [config] ∧
      config.Host = str "https://eks.example.com") ∧
    (∃ kubeconfig,
      builderCalls (sampleGKE.NewForKubernetes sampleEnv).trace
        = [(kubeconfig, sampleGKE.clusterName, { CurrentContext := sampleGKE.clusterName })] ∧
      (∃ entry, kubeconfig.Clusters.get sampleGKE.clusterName = some entry ∧
        entry.Server = str "https://" ++ str "10.0.0.3") ∧
      (∀ clientConfig,
        sampleEnv.ClientConfig kubeconfig sampleGKE.clusterName
            { CurrentContext := sampleGKE.clusterName } = .ok clientConfig →
        factoryConfigs (sampleGKE.NewForKubernetes sampleEnv).trace = [clientConfig]) ∧
      (BuilderKeepsServer sampleEnv →
        ∀ clientConfig ∈ factoryConfigs (sampleGKE.NewForKubernetes sampleEnv).trace,
          clientConfig.Host = str "https://" ++ str "10.0.0.3")) :=
  ⟨(host_is_endpoint sampleEnv).1 sampleEKS ⟨1⟩
      (str "https://sts.amazonaws.com/?Action=GetCallerIdentity") (str "Y2VydA==")
      (str "https://eks.example.com") (str "cert") rfl rfl rfl (by decide),
   (host_is_endpoint sampleEnv).2 sampleGKE ⟨sampleClusters⟩
      ⟨str "target", str "10.0.0.3", some ⟨str "Y2VydA=="⟩⟩ ⟨str "Y2VydA=="⟩ (str "cert")
      rfl (by decide) rfl (by decide)⟩

/-- C4: the cluster entry that the GKE `NewForKubernetes` assembles is built
from the endpoint and the CA of the first list entry whose name equals the
target name, and entries with another name have no effect: two list
responses with the same entries of the target name, in the same order, give
the same run, so that adding, removing or reordering the other entries
changes nothing. -/
theorem gke_first_match_only (env : Env) (cfg : gkeConfig)
    (response : container.ListClustersResponse) :
    (∀ response2 : container.ListClustersResponse,
      matching cfg response2.Clusters = matching cfg response.Clusters →
      cfg.NewForKubernetes (env.withClusters response2)
        = cfg.NewForKubernetes (env.withClusters response)) ∧
    (∀ (cluster : container.Cluster) (masterAuth : container.MasterAuth) (cert : List Byte),
      firstMatch cfg response.Clusters = some cluster →
      cluster.MasterAuth = some masterAuth →
      base64.StdEncoding.DecodeString masterAuth.ClusterCaCertificate = (cert, none) →
      ∃ kubeconfig context overrides,
        builderCalls (cfg.NewForKubernetes (env.withClusters response)).trace
          = [(kubeconfig, context, overrides)] ∧
        kubeconfig.Clusters = [(cfg.clusterName,
          { Server := str "https://" ++ cluster.Endpoint, CertificateAuthorityData := cert })]) := by
  constructor
  · intro response2 h
    simp only [gkeConfig.NewForKubernetes, Env.withClusters]
    rw [rangeClusters_matching _ _ _ _ _ response2.Clusters,
      rangeClusters_matching _ _ _ _ _ response.Clusters, h]
    apply rangeClusters_env <;> rfl
  · intro cluster masterAuth cert hf hm hd
    rw [gke_run (env.withClusters response) cfg response cluster masterAuth cert rfl hf hm hd]
    refine ⟨{ APIVersion := str "v1", Kind := str "Config",
              Clusters := [(cfg.clusterName,
                { Server := str "https://" ++ cluster.Endpoint,
                  CertificateAuthorityData := cert })],
              AuthInfos := [(cfg.clusterName,
                { Token := [], AuthProvider := some
                    { Name := str "gcp", Config := [(str "scopes", gkeAuthScope)] } })],
              Contexts := [(cfg.clusterName,
                { Cluster := cfg.clusterName, AuthInfo := cfg.clusterName })] },
      cfg.clusterName, { CurrentContext := cfg.clusterName }, ?_, rfl⟩
    split <;> simp [builderCalls]

set_option maxRecDepth 100000 in
/-- The witness of C4: the sample list `a`, `b`, `target` against the list
with `target` alone, and the cluster entry assembled for `target`. -/
theorem gke_first_match_only_witness :
    sampleGKE.NewForKubernetes
        (sampleEnv.withClusters ⟨[⟨str "target", str "10.0.0.3", some ⟨str "Y2VydA=="⟩⟩]⟩)
      = sampleGKE.NewForKubernetes (sampleEnv.withClusters ⟨sampleClusters⟩) ∧
    ∃ kubeconfig context overrides,
      builderCalls (sampleGKE.NewForKubernetes (sampleEnv.withClusters ⟨sampleClusters⟩)).trace
        = [(kubeconfig, context, overrides)] ∧
      kubeconfig.Clusters = [(sampleGKE.clusterName,
        { Server := str "https://" ++ str "10.0.0.3", CertificateAuthorityData := str "cert" })] :=
  ⟨(gke_first_match_only sampleEnv sampleGKE ⟨sampleClusters⟩).1
      ⟨[⟨str "target", str "10.0.0.3", some ⟨str "Y2VydA=="⟩⟩]⟩ (by decide),
   (gke_first_match_only sampleEnv sampleGKE ⟨sampleClusters⟩).2
      ⟨str "target", str "10.0.0.3", some ⟨str "Y2VydA=="⟩⟩ ⟨str "Y2VydA=="⟩ (str "cert")
      (by decide) rfl (by decide)⟩

/-- C5: when the list call succeeds and no entry has the target name (the
empty list included), the GKE `NewForKubernetes` returns no client but an
error, whose message contains the target cluster name, the project and the
zone; neither the client-config builder nor the factory is called. -/
theorem gke_not_found (env : Env) (cfg : gkeConfig) (response : container.ListClustersResponse)
    (hl : env.ClustersList cfg.project (str "-") = .ok response)
    (hn : ∀ c ∈ response.Clusters, c.Name ≠ cfg.clusterName) :
    ∃ err, (cfg.NewForKubernetes env).result = .error err ∧
      err.Error = str "error finding container cluster [" ++ cfg.clusterName ++
        str "] in project [" ++ cfg.project ++ str "] and zone [" ++ cfg.zone ++
        str "] - %!w(<nil>)" ∧
      cfg.clusterName <:+: err.Error ∧ cfg.project <:+: err.Error ∧ cfg.zone <:+: err.Error ∧
      builderCalls (cfg.NewForKubernetes env).trace = [] ∧
      factoryConfigs (cfg.NewForKubernetes env).trace = [] := by
  simp only [gkeConfig.NewForKubernetes, hl]
  rw [rangeClusters_none _ _ _ _ _ _ hn, Errorf_notFound _ _ _ _ rfl]
  refine ⟨_, rfl, rfl, ?_, ?_, ?_, by simp [builderCalls], by simp [factoryConfigs]⟩
  · exact ⟨str "error finding container cluster [", str "] in project [" ++ cfg.project ++
      str "] and zone [" ++ cfg.zone ++ str "] - %!w(<nil>)", by simp [GoError.Error]⟩
  · exact ⟨str "error finding container cluster [" ++ cfg.clusterName ++ str "] in project [",
      str "] and zone [" ++ cfg.zone ++ str "] - %!w(<nil>)", by simp [GoError.Error]⟩
  · exact ⟨str "error finding container cluster [" ++ cfg.clusterName ++ str "] in project [" ++
      cfg.project ++ str "] and zone [", str "] - %!w(<nil>)", by simp [GoError.Error]⟩

set_option maxRecDepth 100000 in
/-- The witness of C5: the cluster `missing` against the sample list. -/
theorem gke_not_found_witness :
    ∃ err, (missingGKE.NewForKubernetes sampleEnv).result = .error err ∧
      err.Error = str "error finding container cluster [" ++ missingGKE.clusterName ++
        str "] in project [" ++ missingGKE.project ++ str "] and zone [" ++ missingGKE.zone ++
        str "] - %!w(<nil>)" ∧
      missingGKE.clusterName <:+: err.Error ∧ missingGKE.project <:+: err.Error ∧
      missingGKE.zone <:+: err.Error ∧
      builderCalls (missingGKE.NewForKubernetes sampleEnv).trace = [] ∧
      factoryConfigs (missingGKE.NewForKubernetes sampleEnv).trace = [] :=
  gke_not_found sampleEnv missingGKE ⟨sampleClusters⟩ rfl (by decide)

/-- C8: for a matching entry with a decodable CA, the kubeconfig given to
the client-config builder has exactly one entry in each of the cluster,
context and auth-info maps, all three under the target cluster name; the
context names that cluster and that auth-info, both of which exist; the
auth-info has no static token and the auth provider `gcp` with the setting
`scopes` equal to `https://www.googleapis.com/auth/cloud-platform`. -/
theorem gke_named_configuration (env : Env) (cfg : gkeConfig)
    (response : container.ListClustersResponse) (cluster : container.Cluster)
    (masterAuth : container.MasterAuth) (cert : List Byte)
    (hl : env.ClustersList cfg.project (str "-") = .ok response)
    (hf : firstMatch cfg response.Clusters = some cluster)
    (hm : cluster.MasterAuth = some masterAuth)
    (hd : base64.StdEncoding.DecodeString masterAuth.ClusterCaCertificate = (cert, none)) :
    ∃ kubeconfig entry authProvider,
      builderCalls (cfg.NewForKubernetes env).trace
        = [(kubeconfig, cfg.clusterName, { CurrentContext := cfg.clusterName })] ∧
      kubeconfig.Clusters = [(cfg.clusterName, entry)] ∧
      kubeconfig.Contexts
        = [(cfg.clusterName, { Cluster := cfg.clusterName, AuthInfo := cfg.clusterName })] ∧
      kubeconfig.AuthInfos
        = [(cfg.clusterName, { Token := [], AuthProvider := some authProvider })] ∧
      (kubeconfig.Clusters.get cfg.clusterName).isSome = true ∧
      (kubeconfig.AuthInfos.get cfg.clusterName).isSome = true ∧
      authProvider.Name = str "gcp" ∧
      authProvider.Config = [(str "scopes", gkeAuthScope)] ∧
      gkeAuthScope = str "https://www.googleapis.com/auth/cloud-platform" := by
  rw [gke_run env cfg response cluster masterAuth cert hl hf hm hd]
  refine ⟨{ APIVersion := str "v1", Kind := str "Config",
            Clusters := [(cfg.clusterName,
              { Server := str "https://" ++ cluster.Endpoint,
                CertificateAuthorityData := cert })],
            AuthInfos := [(cfg.clusterName,
              { Token := [], AuthProvider := some
                  { Name := str "gcp", Config := [(str "scopes", gkeAuthScope)] } })],
            Contexts := [(cfg.clusterName,
              { Cluster := cfg.clusterName, AuthInfo := cfg.clusterName })] },
    _, _, ?_, rfl, rfl, rfl, ?_, ?_, rfl, rfl, rfl⟩
  · split <;> simp [builderCalls]
  · simp [GoMap_get_single]
  · simp [GoMap_get_single]

set_option maxRecDepth 100000 in
/-- The witness of C8: the kubeconfig of the sample run for `target`. -/
theorem gke_named_configuration_witness :
    ∃ kubeconfig entry authProvider,
      builderCalls (sampleGKE.NewForKubernetes sampleEnv).trace
        = [(kubeconfig, sampleGKE.clusterName, { CurrentContext := sampleGKE.clusterName })] ∧
      kubeconfig.Clusters = [(sampleGKE.clusterName, entry)] ∧
      kubeconfig.Contexts = [(sampleGKE.clusterName,
        { Cluster := sampleGKE.clusterName, AuthInfo := sampleGKE.clusterName })] ∧
      kubeconfig.AuthInfos
        = [(sampleGKE.clusterName, { Token := [], AuthProvider := some authProvider })] ∧
      (kubeconfig.Clusters.get sampleGKE.clusterName).isSome = true ∧
      (kubeconfig.AuthInfos.get sampleGKE.clusterName).isSome = true ∧
      authProvider.Name = str "gcp" ∧
      authProvider.Config = [(str "scopes", gkeAuthScope)] ∧
      gkeAuthScope = str "https://www.googleapis.com/auth/cloud-platform" :=
  gke_named_configuration sampleEnv sampleGKE ⟨sampleClusters⟩
    ⟨str "target", str "10.0.0.3", some ⟨str "Y2VydA=="⟩⟩ ⟨str "Y2VydA=="⟩ (str "cert")
    rfl (by decide) rfl (by decide)

/-- C9: when the list call succeeds and no entry has the target name, the
error that the GKE `NewForKubernetes` returns is formatted with the `err`
of the list call, which is nil, as operand of `%w`: the message ends with
`%!w(<nil>)` and the error wraps no cause. -/
theorem gke_not_found_formats_nil (env : Env) (cfg : gkeConfig)
    (response : container.ListClustersResponse)
    (hl : env.ClustersList cfg.project (str "-") = .ok response)
    (hn : ∀ c ∈ response.Clusters, c.Name ≠ cfg.clusterName) :
    (cfg.NewForKubernetes env).result
      = .error (Errorf
          (str "error finding container cluster [%s] in project [%s] and zone [%s] - %w")
          [.string cfg.clusterName, .string cfg.project, .string cfg.zone, .error none]) ∧
    ∃ err, (cfg.NewForKubernetes env).result = .error err ∧
      str "%!w(<nil>)" <:+ err.Error ∧ err.Unwrap = none := by
  simp only [gkeConfig.NewForKubernetes, hl]
  rw [rangeClusters_none _ _ _ _ _ _ hn]
  refine ⟨rfl, _, rfl, ?_, ?_⟩
  · rw [Errorf_notFound _ _ _ _ rfl]
    exact ⟨str "error finding container cluster [" ++ cfg.clusterName ++ str "] in project [" ++
      cfg.project ++ str "] and zone [" ++ cfg.zone ++ str "] - ", by simp [GoError.Error]; rfl⟩
  · rw [Errorf_notFound _ _ _ _ rfl]
    rfl

set_option maxRecDepth 100000 in
/-- The witness of C9: the cluster `missing` against the sample list. -/
theorem gke_not_found_formats_nil_witness :
    (missingGKE.NewForKubernetes sampleEnv).result
      = .error (.errorString (str
          "error finding container cluster [missing] in project [proj] and zone [us-central1-a] - %!w(<nil>)")) ∧
    ∃ err, (missingGKE.NewForKubernetes sampleEnv).result = .error err ∧
      str "%!w(<nil>)" <:+ err.Error ∧ err.Unwrap = none :=
  ⟨by decide, (gke_not_found_formats_nil sampleEnv missingGKE ⟨sampleClusters⟩ rfl (by decide)).2⟩

/-- C10: on a successful provider response with an absent field the run
ends in a nil-pointer panic, not with a client or an error: for EKS when the
cluster, the certificate authority, its data or (the CA decoded) the
endpoint is nil, for GKE when the master-auth record of the first entry with
the target name is nil. -/
theorem absent_field_panics (env : Env) :
    (∀ (cfg : eksConfig) (s : Session) (u : GoString) (out : eks.DescribeClusterOutput),
      env.NewSession cfg.configv1 = .ok s →
      env.Presign s [(stsClusterHeader, cfg.clusterName)] 60 = .ok u →
      env.DescribeCluster cfg.clusterName = .ok out →
      (out.Cluster = none ∨
       (∃ endpoint, out.Cluster = some ⟨none, endpoint⟩) ∨
       (∃ endpoint, out.Cluster = some ⟨some ⟨none⟩, endpoint⟩) ∨
       (∃ data cert, out.Cluster = some ⟨some ⟨some data⟩, none⟩ ∧
          base64.StdEncoding.DecodeString data = (cert, none))) →
      (cfg.NewForKubernetes env).result = .panic) ∧
    (∀ (cfg : gkeConfig) (response : container.ListClustersResponse)
      (cluster : container.Cluster),
      env.ClustersList cfg.project (str "-") = .ok response →
      firstMatch cfg response.Clusters = some cluster →
      cluster.MasterAuth = none →
      (cfg.NewForKubernetes env).result = .panic) := by
  constructor
  · intro cfg s u out hs hu hd h
    obtain ⟨c⟩ := out
    simp only [eksConfig.NewForKubernetes, hs, hu, hd]
    rcases h with h | ⟨e, h⟩ | ⟨e, h⟩ | ⟨data, cert, h, hc⟩
    · simp only at h; subst h; rfl
    · simp only at h; subst h; rfl
    · simp only at h; subst h; rfl
    · simp only at h; subst h; simp only [hc]
  · intro cfg response cluster hl hf hm
    have hname := firstMatch_name cfg _ _ hf
    simp only [gkeConfig.NewForKubernetes, hl]
    rw [rangeClusters_first env cfg _ _ _ _ cluster hf]
    simp only [gkeConfig.rangeClusters, hname, ne_eq, not_true_eq_false, if_false, hm]

set_option maxRecDepth 100000 in
/-- The witness of C10: a describe response without certificate authority
and a list entry `target` without master-auth record. -/
theorem absent_field_panics_witness :
    (sampleEKS.NewForKubernetes absentFieldEnv).result = .panic ∧
    (sampleGKE.NewForKubernetes absentFieldEnv).result = .panic :=
  ⟨(absent_field_panics absentFieldEnv).1 sampleEKS ⟨1⟩
      (str "https://sts.amazonaws.com/?Action=GetCallerIdentity") ⟨some ⟨none, none⟩⟩
      rfl rfl rfl (Or.inr (Or.inl ⟨none, rfl⟩)),
   (absent_field_panics absentFieldEnv).2 sampleGKE
      ⟨[⟨str "target", str "10.0.0.3", none⟩]⟩ ⟨str "target", str "10.0.0.3", none⟩
      rfl (by decide) rfl⟩

/-! ## The claims on the error paths -/

theorem infix_in_message (q n r : GoString) : n <:+: q ++ n ++ r := ⟨q, r, rfl⟩

theorem infix_in_message2 (q n r e : GoString) : n <:+: q ++ n ++ r ++ e :=
  ⟨q, r ++ e, by simp⟩

/-- The errors of the loop, when the enclosing `err` is nil: the not-found
error, the invalid-certificate error around the decoder's error, the
configuration error around the builder's error, or the error of the factory
as it is. -/
theorem rangeClusters_error (env : Env) (cfg : gkeConfig) (kubeconfig : api.Config)
    (trace : List Call) (clusters : List container.Cluster) (err : GoError)
    (h : (gkeConfig.rangeClusters env cfg kubeconfig none trace clusters).result = .error err) :
    (err = .errorString (str "error finding container cluster [" ++ cfg.clusterName ++
        str "] in project [" ++ cfg.project ++ str "] and zone [" ++ cfg.zone ++
        str "] - %!w(<nil>)") ∧ cfg.clusterName <:+: err.Error) ∨
    (∃ cluster masterAuth junk cause, cluster ∈ clusters ∧
      cluster.MasterAuth = some masterAuth ∧
      base64.StdEncoding.DecodeString masterAuth.ClusterCaCertificate = (junk, some cause) ∧
      err = .wrapError (str "invalid certificate cluster [" ++ cfg.clusterName ++
        str "] cert [" ++ masterAuth.ClusterCaCertificate ++ str "] - " ++ cause.Error) cause ∧
      cfg.clusterName <:+: err.Error) ∨
    (∃ config cause,
      env.ClientConfig config cfg.clusterName { CurrentContext := cfg.clusterName }
        = .error cause ∧
      err = .wrapError (cause.Error ++
        str " - failed to create Kubernetes configuration for cluster [" ++
        cfg.clusterName ++ str "]") cause ∧
      cfg.clusterName <:+: err.Error) ∨
    (∃ clientConfig, env.NewForConfig clientConfig = .error err) := by
  induction clusters with
  | nil =>
    left
    simp only [gkeConfig.rangeClusters, Errorf_notFound _ _ _ _ rfl, Result.error.injEq] at h
    subst h
    exact ⟨rfl, str "error finding container cluster [", str "] in project [" ++ cfg.project ++
      str "] and zone [" ++ cfg.zone ++ str "] - %!w(<nil>)", by simp [GoError.Error]⟩
  | cons c cs ih =>
    by_cases hc : c.Name = cfg.clusterName
    · simp only [gkeConfig.rangeClusters, hc, ne_eq, not_true_eq_false, if_false] at h
      cases hm : c.MasterAuth with
      | none => simp [hm] at h
      | some masterAuth =>
        simp only [hm] at h
        cases hd : base64.StdEncoding.DecodeString masterAuth.ClusterCaCertificate with
        | mk junk e =>
          cases e with
          | some cause =>
            simp only [hd, Errorf_invalid, Result.error.injEq] at h
            subst h
            refine Or.inr (Or.inl ⟨c, masterAuth, junk, cause, List.mem_cons_self _ _, hm, hd,
              rfl, ?_⟩)
            exact ⟨str "invalid certificate cluster [", _, by simp [GoError.Error]; rfl⟩
          | none =>
            simp only [hd] at h
            split at h
            · rename_i cause hb
              simp only [Errorf_builder, Result.error.injEq] at h
              subst h
              exact Or.inr (Or.inr (Or.inl ⟨_, cause, hb, rfl, _, str "]", rfl⟩))
            · rename_i clientConfig _
              split at h
              · rename_i e he
                simp only [Result.error.injEq] at h
                subst h
                exact Or.inr (Or.inr (Or.inr ⟨clientConfig, he⟩))
              · simp at h
    · simp only [gkeConfig.rangeClusters, hc, ne_eq, not_false_eq_true, if_true] at h
      rcases ih h with h1 | ⟨cl, ma, junk, cause, hmem, h2⟩ | h3 | h4
      · exact Or.inl h1
      · exact Or.inr (Or.inl ⟨cl, ma, junk, cause, List.mem_cons_of_mem _ hmem, h2⟩)
      · exact Or.inr (Or.inr (Or.inl h3))
      · exact Or.inr (Or.inr (Or.inr h4))

/-- C6 (amended): when the CA is not valid standard base64, no configuration
is handed to the factory and no client is returned.  GKE: the error message
contains the raw CA value (and the cluster name) and wraps the decoder's
error.  EKS: the error message contains the cluster name and the decoder's
error text, and wraps the decoder's error. -/
theorem ca_decode_failure (env : Env) :
    (∀ (cfg : eksConfig) (s : Session) (u data : GoString) (endpoint : Option GoString)
      (junk : List Byte) (err : GoError),
      env.NewSession cfg.configv1 = .ok s →
      env.Presign s [(stsClusterHeader, cfg.clusterName)] 60 = .ok u →
      env.DescribeCluster cfg.clusterName = .ok ⟨some ⟨some ⟨some data⟩, endpoint⟩⟩ →
      base64.StdEncoding.DecodeString data = (junk, some err) →
      (cfg.NewForKubernetes env).result
        = .error (.wrapError (str "error retrieving certificate authority data from cluster [" ++
            cfg.clusterName ++ str "] - " ++ err.Error) err) ∧
      factoryConfigs (cfg.NewForKubernetes env).trace = []) ∧
    (∀ (cfg : gkeConfig) (response : container.ListClustersResponse)
      (cluster : container.Cluster) (masterAuth : container.MasterAuth)
      (junk : List Byte) (err : GoError),
      env.ClustersList cfg.project (str "-") = .ok response →
      firstMatch cfg response.Clusters = some cluster →
      cluster.MasterAuth = some masterAuth →
      base64.StdEncoding.DecodeString masterAuth.ClusterCaCertificate = (junk, some err) →
      ∃ msg, (cfg.NewForKubernetes env).result = .error (.wrapError msg err) ∧
        msg = str "invalid certificate cluster [" ++ cfg.clusterName ++ str "] cert [" ++
          masterAuth.ClusterCaCertificate ++ str "] - " ++ err.Error ∧
        masterAuth.ClusterCaCertificate <:+: msg ∧
        builderCalls (cfg.NewForKubernetes env).trace = [] ∧
        factoryConfigs (cfg.NewForKubernetes env).trace = []) := by
  constructor
  · intro cfg s u data endpoint junk err hs hu hd hc
    simp only [eksConfig.NewForKubernetes, hs, hu, hd, hc, Errorf_certificate]
    exact ⟨trivial, by simp [factoryConfigs]⟩
  · intro cfg response cluster masterAuth junk err hl hf hm hc
    have hname := firstMatch_name cfg _ _ hf
    simp only [gkeConfig.NewForKubernetes, hl]
    rw [rangeClusters_first env cfg _ _ _ _ cluster hf]
    simp only [gkeConfig.rangeClusters, hname, ne_eq, not_true_eq_false, if_false, hm, hc,
      Errorf_invalid]
    exact ⟨_, rfl, rfl, infix_in_message2 _ _ _ _, by simp [builderCalls],
      by simp [factoryConfigs]⟩

set_option maxRecDepth 100000 in
/-- The witness of C6 (amended): the CA `!!!` for both providers. -/
theorem ca_decode_failure_witness :
    ((sampleEKS.NewForKubernetes badCAEnv).result
        = .error (.wrapError (str "error retrieving certificate authority data from cluster [" ++
            sampleEKS.clusterName ++ str "] - " ++ (GoError.CorruptInputError 0).Error)
            (.CorruptInputError 0)) ∧
      factoryConfigs (sampleEKS.NewForKubernetes badCAEnv).trace = []) ∧
    ∃ msg, (sampleGKE.NewForKubernetes badCAEnv).result
        = .error (.wrapError msg (.CorruptInputError 0)) ∧
      msg = str "invalid certificate cluster [" ++ sampleGKE.clusterName ++ str "] cert [" ++
        str "!!!" ++ str "] - " ++ (GoError.CorruptInputError 0).Error ∧
      str "!!!" <:+: msg ∧
      builderCalls (sampleGKE.NewForKubernetes badCAEnv).trace = [] ∧
      factoryConfigs (sampleGKE.NewForKubernetes badCAEnv).trace = [] :=
  ⟨(ca_decode_failure badCAEnv).1 sampleEKS ⟨1⟩
      (str "https://sts.amazonaws.com/?Action=GetCallerIdentity") (str "!!!")
      (some (str "https://eks.example.com")) [] (.CorruptInputError 0) rfl rfl rfl (by decide),
   (ca_decode_failure badCAEnv).2 sampleGKE ⟨[⟨str "target", str "10.0.0.3", some ⟨str "!!!"⟩⟩]⟩
      ⟨str "target", str "10.0.0.3", some ⟨str "!!!"⟩⟩ ⟨str "!!!"⟩ [] (.CorruptInputError 0)
      rfl (by decide) rfl (by decide)⟩

set_option maxRecDepth 100000 in
/-- C6, as stated, fails for EKS: with the CA `!!!` for the cluster `prod`
the error message is `error retrieving certificate authority data from
cluster [prod] - illegal base64 data at input byte 0`, which does not
contain `!!!`. -/
theorem eks_ca_error_omits_value :
    (base64.StdEncoding.DecodeString (str "!!!")).2 = some (.CorruptInputError 0) ∧
    (sampleEKS.NewForKubernetes badCAEnv).result
      = .error (.wrapError (str
          "error retrieving certificate authority data from cluster [prod] - illegal base64 data at input byte 0")
          (.CorruptInputError 0)) ∧
    ¬ (str "!!!" <:+: (str
          "error retrieving certificate authority data from cluster [prod] - illegal base64 data at input byte 0")) := by
  decide

/-- C7 (amended): every error that `NewEKSConfig`, `NewGKEConfig` and the
two `NewForKubernetes` return is one of these.  An error made around a
collaborator's error: its message is the text of the operation followed by
the text of the cause (for the client configuration, the cause comes first),
and it wraps the cause; such are the errors for configuration loading, the
container-client creation, the STS session, the pre-signing,
describe-cluster, the EKS CA, the EKS client creation, the GKE list call,
the invalid certificate and the client configuration.  The error `missing
region from config`.  The GKE not-found error, whose message starts with the
operation, the cluster name, the project and the zone.  The error of the
client factory, which the GKE adapter returns as it is.  The message
contains the target cluster name for configuration loading,
describe-cluster, the EKS CA, the GKE list call, the invalid certificate,
the client configuration and not found. -/
theorem error_context (env : Env) :
    (∀ (clusterName : GoString) (err : GoError),
      (NewEKSConfig env clusterName).result = .error err →
      (∃ cause, env.LoadDefaultConfig = .error cause ∧
        err = .wrapError (str "error creating EKSConfig for cluster [" ++ clusterName ++
          str "] - " ++ cause.Error) cause ∧
        clusterName <:+: err.Error) ∨
      err = .errorString (str "missing region from config")) ∧
    (∀ (clusterName project zone : GoString) (err : GoError),
      (NewGKEConfig env clusterName project zone).result = .error err →
      ∃ cause, env.NewService = .error cause ∧
        err = .wrapError (str "error creating container cluster client - " ++ cause.Error)
          cause) ∧
    (∀ (cfg : eksConfig) (err : GoError),
      (cfg.NewForKubernetes env).result = .error err →
      (∃ cause, env.NewSession cfg.configv1 = .error cause ∧
        err = .wrapError (str "unable to create new sts session - " ++ cause.Error) cause) ∨
      (∃ s cause, env.NewSession cfg.configv1 = .ok s ∧
        env.Presign s [(stsClusterHeader, cfg.clusterName)] 60 = .error cause ∧
        err = .wrapError (str "error pre-signing request - " ++ cause.Error) cause) ∨
      (∃ cause, env.DescribeCluster cfg.clusterName = .error cause ∧
        err = .wrapError (str "error describing cluster: [" ++ cfg.clusterName ++
          str "] - " ++ cause.Error) cause ∧
        cfg.clusterName <:+: err.Error) ∨
      (∃ data endpoint junk cause,
        env.DescribeCluster cfg.clusterName = .ok ⟨some ⟨some ⟨some data⟩, endpoint⟩⟩ ∧
        base64.StdEncoding.DecodeString data = (junk, some cause) ∧
        err = .wrapError (str "error retrieving certificate authority data from cluster [" ++
          cfg.clusterName ++ str "] - " ++ cause.Error) cause ∧
        cfg.clusterName <:+: err.Error) ∨
      (∃ config cause, env.NewForConfig config = .error cause ∧
        err = .wrapError (str "error creating kubeconfig client - " ++ cause.Error) cause)) ∧
    (∀ (cfg : gkeConfig) (err : GoError),
      (cfg.NewForKubernetes env).result = .error err →
      (∃ cause, env.ClustersList cfg.project (str "-") = .error cause ∧
        err = .wrapError (str "error getting container cluster [" ++ cfg.clusterName ++
          str "] in project [" ++ cfg.project ++ str "] and zone [" ++ cfg.zone ++
          str "] - " ++ cause.Error) cause ∧
        cfg.clusterName <:+: err.Error) ∨
      (∃ tail, err.Error = str "error finding container cluster [" ++ cfg.clusterName ++
          str "] in project [" ++ cfg.project ++ str "] and zone [" ++ cfg.zone ++
          str "]" ++ tail ∧ cfg.clusterName <:+: err.Error) ∨
      (∃ response cluster masterAuth junk cause,
        env.ClustersList cfg.project (str "-") = .ok response ∧
        cluster ∈ response.Clusters ∧ cluster.MasterAuth = some masterAuth ∧
        base64.StdEncoding.DecodeString masterAuth.ClusterCaCertificate = (junk, some cause) ∧
        err = .wrapError (str "invalid certificate cluster [" ++ cfg.clusterName ++
          str "] cert [" ++ masterAuth.ClusterCaCertificate ++ str "] - " ++ cause.Error)
          cause ∧
        cfg.clusterName <:+: err.Error) ∨
      (∃ config cause,
        env.ClientConfig config cfg.clusterName { CurrentContext := cfg.clusterName }
          = .error cause ∧
        err = .wrapError (cause.Error ++
          str " - failed to create Kubernetes configuration for cluster [" ++
          cfg.clusterName ++ str "]") cause ∧
        cfg.clusterName <:+: err.Error) ∨
      (∃ clientConfig, env.NewForConfig clientConfig = .error err)) := by
  refine ⟨?_, ?_, ?_, ?_⟩
  · intro clusterName err h
    simp only [NewEKSConfig] at h
    cases hl : env.LoadDefaultConfig with
    | error cause =>
      simp only [hl, Errorf_EKSConfig, Result.error.injEq] at h
      subst h
      exact Or.inl ⟨cause, rfl, rfl, infix_in_message2 _ _ _ _⟩
    | ok cfgv2 =>
      simp only [hl] at h
      split at h
      · right
        simp only [Errorf_region, Result.error.injEq] at h
        exact h.symm
      · simp at h
  · intro clusterName project zone err h
    simp only [NewGKEConfig] at h
    cases hs : env.NewService with
    | error cause =>
      simp only [hs, Errorf_service, Result.error.injEq] at h
      exact ⟨cause, rfl, h.symm⟩
    | ok client => simp [hs] at h
  · intro cfg err h
    simp only [eksConfig.NewForKubernetes] at h
    cases hs : env.NewSession cfg.configv1 with
    | error cause =>
      simp only [hs, Errorf_session, Result.error.injEq] at h
      exact Or.inl ⟨cause, rfl, h.symm⟩
    | ok s =>
      simp only [hs] at h
      cases hp : env.Presign s [(stsClusterHeader, cfg.clusterName)] 60 with
      | error cause =>
        simp only [hp, Errorf_presign, Result.error.injEq] at h
        exact Or.inr (Or.inl ⟨s, cause, rfl, hp, h.symm⟩)
      | ok u =>
        simp only [hp] at h
        cases hd : env.DescribeCluster cfg.clusterName with
        | error cause =>
          simp only [hd, Errorf_describe, Result.error.injEq] at h
          subst h
          exact Or.inr (Or.inr (Or.inl ⟨cause, rfl, rfl, infix_in_message2 _ _ _ _⟩))
        | ok out =>
          obtain ⟨cl⟩ := out
          simp only [hd] at h
          cases cl with
          | none => simp at h
          | some cluster =>
            obtain ⟨ca, ep⟩ := cluster
            cases ca with
            | none => simp at h
            | some certificate =>
              obtain ⟨dataOpt⟩ := certificate
              cases dataOpt with
              | none => simp at h
              | some data =>
                simp only at h
                cases hdec : base64.StdEncoding.DecodeString data with
                | mk junk e =>
                  cases e with
                  | some cause =>
                    simp only [hdec, Errorf_certificate, Result.error.injEq] at h
                    subst h
                    exact Or.inr (Or.inr (Or.inr (Or.inl
                      ⟨data, ep, junk, cause, rfl, hdec, rfl, infix_in_message2 _ _ _ _⟩)))
                  | none =>
                    simp only [hdec] at h
                    cases ep with
                    | none => simp at h
                    | some endpoint =>
                      simp only at h
                      split at h
                      · rename_i cause hf
                        simp only [Errorf_kubeconfig, Result.error.injEq] at h
                        exact Or.inr (Or.inr (Or.inr (Or.inr ⟨_, cause, hf, h.symm⟩)))
                      · simp at h
  · intro cfg err h
    simp only [gkeConfig.NewForKubernetes] at h
    cases hl : env.ClustersList cfg.project (str "-") with
    | error cause =>
      simp only [hl, Errorf_list, Result.error.injEq] at h
      subst h
      refine Or.inl ⟨cause, rfl, rfl, ?_⟩
      exact ⟨str "error getting container cluster [", _, by simp [GoError.Error]; rfl⟩
    | ok response =>
      simp only [hl] at h
      rcases rangeClusters_error env cfg _ _ _ err h with
        h1 | ⟨cl, ma, junk, cause, hmem, h2⟩ | h3 | h4
      · obtain ⟨rfl, hin⟩ := h1
        refine Or.inr (Or.inl ⟨str " - %!w(<nil>)", ?_, hin⟩)
        simp only [GoError.Error, List.append_assoc]
        rfl
      · exact Or.inr (Or.inr (Or.inl ⟨response, cl, ma, junk, cause, rfl, hmem, h2⟩))
      · exact Or.inr (Or.inr (Or.inr (Or.inl h3)))
      · exact Or.inr (Or.inr (Or.inr (Or.inr h4)))

set_option maxRecDepth 100000 in
/-- The witness of C7 (amended): one failing run of each of the four
functions: no region, no credentials for the container client, the CA `!!!`
for EKS, and the cluster `missing` for GKE. -/
theorem error_context_witness :
    (∃ err, (NewEKSConfig noRegionEnv (str "prod")).result = .error err ∧
      ((∃ cause, noRegionEnv.LoadDefaultConfig = .error cause ∧
        err = .wrapError (str "error creating EKSConfig for cluster [" ++ str "prod" ++
          str "] - " ++ cause.Error) cause ∧
        str "prod" <:+: err.Error) ∨
      err = .errorString (str "missing region from config"))) ∧
    (∃ err, (NewGKEConfig noCredentialsEnv (str "target") (str "proj")
        (str "us-central1-a")).result = .error err ∧
      ∃ cause, noCredentialsEnv.NewService = .error cause ∧
        err = .wrapError (str "error creating container cluster client - " ++ cause.Error)
          cause) ∧
    (∃ err, (sampleEKS.NewForKubernetes badCAEnv).result = .error err ∧
      ((∃ cause, badCAEnv.NewSession sampleEKS.configv1 = .error cause ∧
        err = .wrapError (str "unable to create new sts session - " ++ cause.Error) cause) ∨
      (∃ s cause, badCAEnv.NewSession sampleEKS.configv1 = .ok s ∧
        badCAEnv.Presign s [(stsClusterHeader, sampleEKS.clusterName)] 60 = .error cause ∧
        err = .wrapError (str "error pre-signing request - " ++ cause.Error) cause) ∨
      (∃ cause, badCAEnv.DescribeCluster sampleEKS.clusterName = .error cause ∧
        err = .wrapError (str "error describing cluster: [" ++ sampleEKS.clusterName ++
          str "] - " ++ cause.Error) cause ∧
        sampleEKS.clusterName <:+: err.Error) ∨
      (∃ data endpoint junk cause,
        badCAEnv.DescribeCluster sampleEKS.clusterName
          = .ok ⟨some ⟨some ⟨some data⟩, endpoint⟩⟩ ∧
        base64.StdEncoding.DecodeString data = (junk, some cause) ∧
        err = .wrapError (str "error retrieving certificate authority data from cluster [" ++
          sampleEKS.clusterName ++ str "] - " ++ cause.Error) cause ∧
        sampleEKS.clusterName <:+: err.Error) ∨
      (∃ config cause, badCAEnv.NewForConfig config = .error cause ∧
        err = .wrapError (str "error creating kubeconfig client - " ++ cause.Error) cause))) ∧
    (∃ err, (missingGKE.NewForKubernetes sampleEnv).result = .error err ∧
      ((∃ cause, sampleEnv.ClustersList missingGKE.project (str "-") = .error cause ∧
        err = .wrapError (str "error getting container cluster [" ++ missingGKE.clusterName ++
          str "] in project [" ++ missingGKE.project ++ str "] and zone [" ++ missingGKE.zone ++
          str "] - " ++ cause.Error) cause ∧
        missingGKE.clusterName <:+: err.Error) ∨
      (∃ tail, err.Error = str "error finding container cluster [" ++
          missingGKE.clusterName ++ str "] in project [" ++ missingGKE.project ++
          str "] and zone [" ++ missingGKE.zone ++ str "]" ++ tail ∧
        missingGKE.clusterName <:+: err.Error) ∨
      (∃ response cluster masterAuth junk cause,
        sampleEnv.ClustersList missingGKE.project (str "-") = .ok response ∧
        cluster ∈ response.Clusters ∧ cluster.MasterAuth = some masterAuth ∧
        base64.StdEncoding.DecodeString masterAuth.ClusterCaCertificate = (junk, some cause) ∧
        err = .wrapError (str "invalid certificate cluster [" ++ missingGKE.clusterName ++
          str "] cert [" ++ masterAuth.ClusterCaCertificate ++ str "] - " ++ cause.Error)
          cause ∧
        missingGKE.clusterName <:+: err.Error) ∨
      (∃ config cause,
        sampleEnv.ClientConfig config missingGKE.clusterName
            { CurrentContext := missingGKE.clusterName } = .error cause ∧
        err = .wrapError (cause.Error ++
          str " - failed to create Kubernetes configuration for cluster [" ++
          missingGKE.clusterName ++ str "]") cause ∧
        missingGKE.clusterName <:+: err.Error) ∨
      (∃ clientConfig, sampleEnv.NewForConfig clientConfig = .error err))) :=
  ⟨⟨.errorString (str "missing region from config"), by decide,
      (error_context noRegionEnv).1 (str "prod") _ (by decide)⟩,
   ⟨.wrapError (str
      "error creating container cluster client - could not find default credentials")
      (.errorString (str "could not find default credentials")), by decide,
      (error_context noCredentialsEnv).2.1 (str "target") (str "proj") (str "us-central1-a") _
        (by decide)⟩,
   ⟨.wrapError (str
      "error retrieving certificate authority data from cluster [prod] - illegal base64 data at input byte 0")
      (.CorruptInputError 0), by decide,
      (error_context badCAEnv).2.2.1 sampleEKS _ (by decide)⟩,
   ⟨.errorString (str
      "error finding container cluster [missing] in project [proj] and zone [us-central1-a] - %!w(<nil>)"),
      by decide, (error_context sampleEnv).2.2.2 missingGKE _ (by decide)⟩⟩

set_option maxRecDepth 100000 in
/-- C7, as stated, fails: `NewEKSConfig` for the cluster `prod`, with no
region in the loaded configuration, returns the error `missing region from
config`, whose message does not contain `prod`. -/
theorem missing_region_omits_cluster :
    (NewEKSConfig noRegionEnv (str "prod")).result
      = .error (.errorString (str "missing region from config")) ∧
    ¬ (str "prod" <:+: (GoError.errorString (str "missing region from config")).Error) := by
  decide

/-! ## The decoding loop never runs out of fuel -/

namespace base64

theorem scanPadEnd_rest (j : Nat) (dbuf : List Nat) (si : Nat) (l : List Byte)
    (dlen : Nat) (dbuf2 : List Nat) (si2 : Nat) (rest : List Byte) (err : Option GoError)
    (h : scanPadEnd j dbuf si l = .brk dlen dbuf2 si2 rest err) : rest.length ≤ l.length := by
  simp only [scanPadEnd, Scan.brk.injEq] at h
  obtain ⟨-, -, -, h, -⟩ := h
  rw [← h]
  exact (List.dropWhile_sublist _).length_le

theorem scanQuantum_rest (enc : Encoding) (l : List Byte) :
    ∀ (j : Nat) (dbuf : List Nat) (si : Nat) (dlen : Nat) (dbuf2 : List Nat) (si2 : Nat)
      (rest : List Byte) (err : Option GoError),
      enc.scanQuantum l j dbuf si = .brk dlen dbuf2 si2 rest err → rest.length ≤ l.length := by
  induction l with
  | nil =>
    intro j dbuf si dlen dbuf2 si2 rest err h
    simp only [Encoding.scanQuantum] at h
    split_ifs at h <;> simp_all
  | cons c cs ih =>
    intro j dbuf si dlen dbuf2 si2 rest err h
    simp only [Encoding.scanQuantum] at h
    split_ifs at h with h1 h2 h3 h4
    · simp only [Scan.brk.injEq] at h
      rw [← h.2.2.2.1]
    · exact Nat.le_succ_of_le (ih _ _ _ _ _ _ _ _ h)
    · exact Nat.le_succ_of_le (ih _ _ _ _ _ _ _ _ h)
    · split at h
      · simp at h
      · simp at h
      · split at h
        · simp at h
        · rename_i d rest3 hd
          split_ifs at h
          have h5 := scanPadEnd_rest _ _ _ _ _ _ _ _ _ h
          have h6 : (List.dropWhile isNewline cs).length ≤ cs.length :=
            (List.dropWhile_sublist _).length_le
          rw [hd] at h6
          simp only [List.length_cons] at h6 ⊢
          omega
      · exact Nat.le_succ_of_le (scanPadEnd_rest _ _ _ _ _ _ _ _ _ h)

theorem decodeQuantum_rest (enc : Encoding) (c : Byte) (src : List Byte) (si : Nat) :
    (enc.decodeQuantum (c :: src) si).rest.length ≤ src.length := by
  simp only [Encoding.decodeQuantum]
  split
  · simp
  · rename_i dlen dbuf si2 rest err h
    have hr : rest.length ≤ src.length := by
      simp only [Encoding.scanQuantum] at h
      split_ifs at h with h1
      · omega
      · exact scanQuantum_rest enc _ _ _ _ _ _ _ _ _ h
      · exact scanQuantum_rest enc _ _ _ _ _ _ _ _ _ h
    split
    · exact hr
    · split_ifs <;> exact hr
    · split_ifs <;> exact hr
    · exact hr

theorem decodeLoop_fuel (enc : Encoding) :
    ∀ (fuel1 fuel2 : Nat) (src : List Byte) (si : Nat) (dst : List Byte),
      src.length ≤ fuel1 → src.length ≤ fuel2 →
      enc.decodeLoop fuel1 src si dst = enc.decodeLoop fuel2 src si dst := by
  intro fuel1
  induction fuel1 with
  | zero =>
    intro fuel2 src si dst h1 _
    have : src = [] := List.length_eq_zero.mp (Nat.le_zero.mp h1)
    subst this
    cases fuel2 <;> simp [Encoding.decodeLoop]
  | succ f1 ih =>
    intro fuel2 src si dst h1 h2
    cases src with
    | nil => cases fuel2 <;> simp [Encoding.decodeLoop]
    | cons c cs =>
      cases fuel2 with
      | zero => simp at h2
      | succ f2 =>
        simp only [Encoding.decodeLoop]
        split
        · rfl
        · have hq := decodeQuantum_rest enc c cs si
          simp only [List.length_cons] at h1 h2
          exact ih f2 _ _ _ (by omega) (by omega)

/-- The result of `DecodeString` is that of the loop with any larger bound
on its iterations: the bound is never what ends the loop. -/
theorem DecodeString_fuel (enc : Encoding) (s : GoString) (fuel : Nat) (h : s.length ≤ fuel) :
    enc.decodeLoop fuel s 0 [] = enc.DecodeString s :=
  decodeLoop_fuel enc fuel s.length s 0 [] h (Nat.le_refl _)

end base64

end Client
